import Mathlib

/-
Verification of the LEDES98BI editor core (pipe-delimited legal-billing format):
a shallow embedding, in Lean 4, of the format codec (`LedesFileHandler.parseFile`,
`LedesFileHandler.formatForDownload`) and of the three-tier validation engine
(`LedesValidator.validateField`, `validateRow`, `validateCrossFieldRow`,
`validateDataset` and the three cross-row checks), together with theorems about
the embedded definitions.

Modelling conventions:
* JavaScript strings are embedded as `List Char` (`Str`); string operations
  (`trim`, `split`, `replace`, `toUpperCase`, …) are defined executably below.
* JavaScript numbers are embedded as exact rationals (`ℚ`): `parseFloat`
  returns `Option ℚ` with `none` playing the role of `NaN`.  IEEE-754 rounding,
  `Infinity`, negative zero and the exponent-notation printing of very large or
  very small magnitudes are idealised away; every comparison and every message
  in the claims below involves small decimal literals on which the rational and
  the double semantics agree.
* `row` objects (`Record<string, string>`) are embedded as association lists
  with JavaScript object-key semantics: assigning an existing key updates the
  value in place (keeping the key's original position), assigning a fresh key
  appends it.
-/

set_option maxHeartbeats 1000000
set_option maxRecDepth 16000

abbrev Str := List Char

/-- Coercion from a Lean string literal to the `List Char` representation. -/
def str (s : String) : Str := s.data

/-- Whitespace characters recognised by the JavaScript `trim` / `\s` class
(ASCII subset; exotic Unicode space code points are not modelled). -/
def isWS (c : Char) : Bool :=
  c = ' ' ∨ c = '\t' ∨ c = '\n' ∨ c = '\r' ∨ c = '\x0b' ∨ c = '\x0c'

/-- Embedding of JavaScript `String.prototype.trim`. -/
def trim (l : Str) : Str :=
  ((l.dropWhile isWS).reverse.dropWhile isWS).reverse

/-- Embedding of JavaScript `String.prototype.toUpperCase` (ASCII letters). -/
def toUpperJS (l : Str) : Str := l.map Char.toUpper

/-- Decimal digit test (the JavaScript `\d` class). -/
def isDigitCh (c : Char) : Bool := '0' ≤ c ∧ c ≤ '9'

/-- ASCII letter test (the JavaScript `[A-Za-z]` class, i.e. `[A-Z]` with the
`i` flag). -/
def isAlphaCh (c : Char) : Bool := ('A' ≤ c ∧ c ≤ 'Z') ∨ ('a' ≤ c ∧ c ≤ 'z')

/-- Test whether `l` ends with the suffix `suf` (JavaScript `endsWith`). -/
def endsWith (l suf : Str) : Bool := l.reverse.take suf.length = suf.reverse

/-- Test whether `pat` occurs as a contiguous substring of `l`
(JavaScript `includes`). -/
def containsSub (l pat : Str) : Bool :=
  (List.range (l.length + 1)).any (fun i => (l.drop i).take pat.length = pat)

/-- Embedding of `value.replace(/[^\d.-]/g, "")`: keep only digits, `.`
and `-`. -/
def stripNum (l : Str) : Str :=
  l.filter (fun c => isDigitCh c ∨ c = '.' ∨ c = '-')

/-- Numeric value of a list of decimal digits. -/
def digitsToNat (l : Str) : Nat :=
  l.foldl (fun a c => a * 10 + (c.toNat - '0'.toNat)) 0

/-- Decimal representation of a natural number. -/
def natToStr (n : Nat) : Str := Nat.toDigits 10 n

/-- Decimal representation of an integer (JavaScript `Number` → string for
integral values). -/
def intToStr (i : Int) : Str :=
  if i < 0 then '-' :: natToStr i.natAbs else natToStr i.natAbs

/-- Multiplication on `ℚ` through `mkRat` (definitionally computable — the
library's `Rat.mul` is irreducible; `qmul_eq` below identifies the two). -/
def qmul (a b : ℚ) : ℚ := mkRat (a.num * b.num) (a.den * b.den)

/-- Addition on `ℚ` through `mkRat`; see `qadd_eq`. -/
def qadd (a b : ℚ) : ℚ := mkRat (a.num * b.den + b.num * a.den) (a.den * b.den)

/-- Subtraction on `ℚ` through `mkRat`; see `qsub_eq`. -/
def qsub (a b : ℚ) : ℚ := mkRat (a.num * b.den - b.num * a.den) (a.den * b.den)

/-- Absolute value on `ℚ` through `mkRat`; see `qabs_eq`. -/
def qabs (a : ℚ) : ℚ := mkRat a.num.natAbs a.den

/-- Power of ten as a rational, for a natural exponent. -/
def qpow10 (n : Nat) : ℚ := mkRat (Int.ofNat (Nat.pow 10 n)) 1

/-- Power of ten as a rational, for an integer exponent. -/
def qpow10i : Int → ℚ
  | Int.ofNat n => mkRat (Int.ofNat (Nat.pow 10 n)) 1
  | Int.negSucc n => mkRat 1 (Nat.pow 10 (n + 1))

/-- Embedding of JavaScript `parseFloat` on the rational idealisation of
doubles: leading whitespace, an optional sign, integer digits, an optional
fraction and an optional exponent are consumed as the longest valid prefix;
`none` stands for `NaN` (no digit consumed).  The special form `Infinity` and
hexadecimal forms (which `parseFloat` does not accept either) yield the same
results as in JavaScript on all inputs made of the characters that can survive
the validator's numeric stripping. -/
def parseFloat (s : Str) : Option ℚ :=
  let s1 := s.dropWhile isWS
  let sgn : ℚ := if s1.head? = some '-' then -1 else 1
  let s2 := if s1.head? = some '-' ∨ s1.head? = some '+' then s1.tail else s1
  let ip := s2.takeWhile isDigitCh
  let r3 := s2.drop ip.length
  let fp := if r3.head? = some '.' then r3.tail.takeWhile isDigitCh else []
  let r4 := if r3.head? = some '.' then r3.tail.drop fp.length else r3
  if ip = [] ∧ fp = [] then none
  else
    let mant : ℚ := mkRat (Int.ofNat (digitsToNat (ip ++ fp))) (Nat.pow 10 fp.length)
    let e : Int :=
      match r4 with
      | c :: r5 =>
        if c = 'e' ∨ c = 'E' then
          let esgn : Int := if r5.head? = some '-' then -1 else 1
          let r6 := if r5.head? = some '-' ∨ r5.head? = some '+' then r5.tail else r5
          let ed := r6.takeWhile isDigitCh
          if ed = [] then 0 else esgn * (digitsToNat ed : Int)
        else 0
      | [] => 0
    some (qmul sgn (qmul mant (qpow10i e)))

/-- Embedding of JavaScript `parseInt` with the default radix on decimal
input: leading whitespace, an optional sign, then the longest digit prefix;
`none` stands for `NaN`.  (A leading `0x` makes `parseInt` switch to base 16
in JavaScript; on such inputs both the model and the source reject the value
in `validateInteger` because the canonical string form cannot match.) -/
def parseIntJS (s : Str) : Option Int :=
  let s1 := s.dropWhile isWS
  let sgn : Int := if s1.head? = some '-' then -1 else 1
  let s2 := if s1.head? = some '-' ∨ s1.head? = some '+' then s1.tail else s1
  let ds := s2.takeWhile isDigitCh
  if ds = [] then none else some (sgn * (digitsToNat ds : Int))

/-- Printing of a rational holding a finite decimal value, as JavaScript
prints the corresponding number: integers without a decimal point, other
finite decimals with the shortest fraction.  Rationals that are not finite
decimals (never produced by `parseFloat`) print as a placeholder. -/
def numToStr (q : ℚ) : Str :=
  if q.den = 1 then intToStr q.num
  else
    match (List.range (q.den + 1)).find? (fun k => (qmul q (qpow10 k)).den = 1) with
    | some k =>
      let n := (qmul q (qpow10 k)).num
      let ds := natToStr n.natAbs
      let ds := if ds.length < k + 1 then List.replicate (k + 1 - ds.length) '0' ++ ds else ds
      (if n < 0 then ['-'] else []) ++ ds.take (ds.length - k) ++ '.' :: ds.drop (ds.length - k)
    | none => ['?']

/-- Embedding of JavaScript `toFixed(2)`: round to the nearest multiple of
`1/100`, half away from the smaller value, and print with exactly two
fraction digits. -/
def toFixed2 (q : ℚ) : Str :=
  let n : Int := (qadd (qmul q (mkRat 100 1)) (mkRat 1 2)).floor
  let ds := natToStr n.natAbs
  let ds := if ds.length < 3 then List.replicate (3 - ds.length) '0' ++ ds else ds
  (if n < 0 then ['-'] else []) ++ ds.take (ds.length - 2) ++ '.' :: ds.drop (ds.length - 2)

/-- Decidable equality on `Except`, for evaluating concrete parses. -/
instance {e a : Type} [DecidableEq e] [DecidableEq a] : DecidableEq (Except e a) := fun x y =>
  match x, y with
  | .ok u, .ok v =>
    if h : u = v then isTrue (by rw [h]) else isFalse (fun he => h (Except.ok.inj he))
  | .error u, .error v =>
    if h : u = v then isTrue (by rw [h]) else isFalse (fun he => h (Except.error.inj he))
  | .ok _, .error _ => isFalse (fun he => Except.noConfusion he)
  | .error _, .ok _ => isFalse (fun he => Except.noConfusion he)

/-! ## Data model (`src/lib/types.ts`) -/

/-- Row-scoped validation error (`ValidationError` in `types.ts`); `row` is
`none` until the orchestrator stamps the 1-based row number. -/
structure ValidationError where
  field : Str
  column : Int
  value : Str
  error : Str
  row : Option Nat := none
deriving DecidableEq

/-- Cross-row validation error (`DatasetValidationError` in `types.ts`). -/
structure DatasetValidationError where
  type : Str
  invoice_identifier : Str
  error : Str
  affected_rows : List Nat
deriving DecidableEq

/-- Validation result (`ValidationResult` in `types.ts`). -/
structure ValidationResult where
  row_errors : List ValidationError
  dataset_errors : List DatasetValidationError
deriving DecidableEq

/-- Dataset produced by the codec (`LedesData` in `types.ts`); a row is a
JavaScript object embedded as an association list. -/
structure LedesData where
  headers : List Str
  rows : List (List (Str × Str))
deriving DecidableEq

/-- Canonical LEDES98BI field list (`LEDES_HEADERS` in `types.ts`). -/
def LEDES_HEADERS : List Str :=
  [str "INVOICE_DATE", str "INVOICE_NUMBER", str "CLIENT_MATTER_ID",
   str "INVOICE_TOTAL", str "INVOICE_DESCRIPTION", str "LAW_FIRM_MATTER_ID",
   str "BILLING_START_DATE", str "BILLING_END_DATE", str "INVOICE_TAX_TOTAL",
   str "INVOICE_NET_TOTAL", str "INVOICE_CURRENCY", str "INVOICE_TAX_CURRENCY",
   str "INVOICE_REPORTED_TAX_TOTAL", str "LINE_ITEM_NUMBER",
   str "LINE_ITEM_NUMBER_OF_UNITS", str "LINE_ITEM_DATE",
   str "LINE_ITEM_UNIT_COST", str "LINE_ITEM_ADJUSTMENT_AMOUNT",
   str "LINE_ITEM_TOTAL", str "LINE_ITEM_TAX_TOTAL", str "LINE_ITEM_TAX_RATE",
   str "LINE_ITEM_DESCRIPTION", str "LINE_ITEM_TYPE",
   str "LINE_ITEM_EXPENSE_TYPE", str "LINE_ITEM_TASK_CODE",
   str "LINE_ITEM_ACTIVITY_CODE", str "LINE_ITEM_LAWYER_ID",
   str "LINE_ITEM_EXP_DESCRIPTION", str "LAW_FIRM_NAME",
   str "LAW_FIRM_ADDRESS_1", str "LAW_FIRM_ADDRESS_2", str "LAW_FIRM_CITY",
   str "LAW_FIRM_STATEorREGION", str "LAW_FIRM_POSTCODE",
   str "LAW_FIRM_COUNTRY", str "LAW_FIRM_PHONE", str "LAW_FIRM_FAX",
   str "LAW_FIRM_EMAIL", str "LAW_FIRM_REGISTRATION_ID", str "CLIENT_NAME",
   str "CLIENT_ADDRESS_1", str "CLIENT_ADDRESS_2", str "CLIENT_CITY",
   str "CLIENT_STATEorREGION", str "CLIENT_POSTCODE", str "CLIENT_COUNTRY",
   str "CLIENT_PHONE", str "CLIENT_FAX", str "CLIENT_EMAIL",
   str "CLIENT_REGISTRATION_ID", str "RESERVED1", str "RESERVED2",
   str "RESERVED3"]

/-! ## JavaScript object embedding -/

/-- Assignment `m[k] = v` on a JavaScript object embedded as an association
list: an existing key keeps its position and gets the new value, a fresh key
is appended.  (Object keys are unique, so updating the first occurrence is
the object semantics.) -/
def objSet : List (Str × Str) → Str → Str → List (Str × Str)
  | [], k, v => [(k, v)]
  | p :: m, k, v => if p.1 = k then (k, v) :: m else p :: objSet m k v

/-- Lookup `m[k] || ""` on an embedded object: value of the first entry with
key `k`, or the empty string. -/
def dictGet (m : List (Str × Str)) (k : Str) : Str :=
  match m.find? (fun p => p.1 = k) with
  | some p => p.2
  | none => []

/-- JavaScript `Array.prototype.indexOf` on a header list (`-1` if absent). -/
def jsIndexOf (l : List Str) (x : Str) : Int :=
  match l.findIdx? (fun h => h = x) with
  | some i => (i : Int)
  | none => -1

/-- Row dictionary of `validateCrossFieldRow`:
`headers.forEach((header, index) => rowDict[header] = rowData[index] || "")`. -/
def mkRowDict (headers values : List Str) : List (Str × Str) :=
  headers.enum.foldl (fun m p => objSet m p.2 (values.getD p.1 [])) []

/-! ## Field Rule Table (`LedesValidator`, `src/lib/ledesValidator.ts`) -/

/-- The 51 US state / territory codes of `validStateCodes`. -/
def validStateCodes : List Str :=
  [str "AL", str "AK", str "AZ", str "AR", str "CA", str "CO", str "CT",
   str "DE", str "FL", str "GA", str "HI", str "ID", str "IL", str "IN",
   str "IA", str "KS", str "KY", str "LA", str "ME", str "MD", str "MA",
   str "MI", str "MN", str "MS", str "MO", str "MT", str "NE", str "NV",
   str "NH", str "NJ", str "NM", str "NY", str "NC", str "ND", str "OH",
   str "OK", str "OR", str "PA", str "RI", str "SC", str "SD", str "TN",
   str "TX", str "UT", str "VT", str "VA", str "WA", str "WV", str "WI",
   str "WY", str "DC"]

/-- Gregorian leap-year rule (as used by the JavaScript `Date` object). -/
def isLeap (y : Nat) : Bool := y % 4 = 0 ∧ (y % 100 ≠ 0 ∨ y % 400 = 0)

/-- Number of days in a month of the proleptic Gregorian calendar. -/
def daysInMonth (y m : Nat) : Nat :=
  if m = 2 then (if isLeap y then 29 else 28)
  else if m = 4 ∨ m = 6 ∨ m = 9 ∨ m = 11 then 30 else 31

/-- Embedding of `validateDate`.  The source builds
`new Date(year, month - 1, day)` and checks that the three components survive
the round trip; that check holds exactly when the month and day are in range
for the given year **and** the year is at least 100 (the `Date` constructor
remaps the years 0–99 to 1900–1999, so those never round-trip). -/
def validateDate (value : Str) : Bool × Str :=
  if ¬ (value.length = 8 ∧ value.all isDigitCh) then
    (false, str "Date must be in YYYYMMDD format")
  else
    let year := digitsToNat (value.take 4)
    let month := digitsToNat ((value.drop 4).take 2)
    let day := digitsToNat (value.drop 6)
    if 100 ≤ year ∧ 1 ≤ month ∧ month ≤ 12 ∧ 1 ≤ day ∧ day ≤ daysInMonth year month
    then (true, []) else (false, str "Invalid date")

/-- Embedding of `validateDecimal` (`parseFloat` plus `isNaN` check). -/
def validateDecimal (value : Str) : Bool × Str :=
  match parseFloat value with
  | none => (false, str "Invalid decimal number")
  | some _ => (true, [])

/-- Embedding of `validateInteger` (`parseInt` whose canonical string form
must equal the input exactly). -/
def validateInteger (value : Str) : Bool × Str :=
  match parseIntJS value with
  | none => (false, str "Must be a whole number")
  | some i => if intToStr i = value then (true, []) else (false, str "Must be a whole number")

/-- Embedding of `validateRequiredDate`. -/
def validateRequiredDate (value : Str) : Bool × Str :=
  if value = [] ∨ trim value = [] then (false, str "Date is required")
  else validateDate value

/-- Embedding of `validateRequiredDecimal`. -/
def validateRequiredDecimal (value : Str) : Bool × Str :=
  if value = [] ∨ trim value = [] then (false, str "Value is required")
  else validateDecimal value

/-- Embedding of `validateText` (generic text rule). -/
def validateText (value : Str) : Bool × Str :=
  if value.contains '|' then (false, str "Pipe character (|) not allowed")
  else if 1000 < value.length then (false, str "Text too long (maximum 1000 characters)")
  else (true, [])

/-- Embedding of `validateRequiredText`. -/
def validateRequiredText (value : Str) : Bool × Str :=
  if value = [] ∨ trim value = [] then (false, str "Field is required")
  else validateText value

/-- Embedding of `validateLineItemType`. -/
def validateLineItemType (value : Str) : Bool × Str :=
  if [str "F", str "E", str "IF", str "IE"].contains (toUpperJS value) then (true, [])
  else (false, str "Line item type must be F, E, IF, or IE")

/-- Embedding of `validateCurrency` (`/^[A-Z]{3}$/i`). -/
def validateCurrency (value : Str) : Bool × Str :=
  if value.length = 3 ∧ value.all isAlphaCh then (true, [])
  else (false, str "Currency must be a 3-letter code (e.g., USD, EUR, GBP)")

/-- Embedding of `validatePostcode` (`/^[A-Z0-9\-\s]{3,10}$/i`). -/
def validatePostcode (value : Str) : Bool × Str :=
  if 3 ≤ value.length ∧ value.length ≤ 10 ∧
      value.all (fun c => isAlphaCh c ∨ isDigitCh c ∨ c = '-' ∨ isWS c)
  then (true, []) else (false, str "Invalid postcode format")

/-- Embedding of `validateStateOrRegion`. -/
def validateStateOrRegion (value : Str) : Bool × Str :=
  if validStateCodes.contains (toUpperJS value) then (true, [])
  else if 2 ≤ value.length ∧ value.length ≤ 50 ∧
      value.all (fun c => isAlphaCh c ∨ isWS c) then (true, [])
  else (false, str "Invalid state or region format")

/-- Rule-dispatch table `fieldValidators`, keyed by field identifier, in the
source's entry order. -/
def lookupFieldValidator (name : Str) : Option (Str → Bool × Str) :=
  if name = str "INVOICE_DATE" then some validateDate
  else if name = str "BILLING_START_DATE" then some validateDate
  else if name = str "BILLING_END_DATE" then some validateDate
  else if name = str "LINE_ITEM_DATE" then some validateRequiredDate
  else if name = str "LINE_ITEM_TAX_RATE" then some validateDecimal
  else if name = str "LINE_ITEM_NUMBER_OF_UNITS" then some validateDecimal
  else if name = str "LINE_ITEM_NUMBER" then some validateInteger
  else if name = str "LINE_ITEM_TYPE" then some validateLineItemType
  else if name = str "LINE_ITEM_TOTAL" then some validateRequiredDecimal
  else if name = str "LAW_FIRM_POSTCODE" then some validatePostcode
  else if name = str "CLIENT_POSTCODE" then some validatePostcode
  else if name = str "LAW_FIRM_STATEorREGION" then some validateStateOrRegion
  else if name = str "CLIENT_STATEorREGION" then some validateStateOrRegion
  else if name = str "LAW_FIRM_ID" then some validateRequiredText
  else if name = str "CLIENT_TAX_ID" then some validateRequiredText
  else if name = str "INVOICE_NET_TOTAL" then some validateRequiredDecimal
  else if name = str "INVOICE_CURRENCY" then some validateCurrency
  else none

/-- Embedding of `validateField`: an empty or whitespace-only value passes
before the dispatch table is consulted; otherwise the field's bound validator
(or the generic text rule) runs. -/
def validateField (fieldName value : Str) : Bool × Str :=
  if value = [] ∨ trim value = [] then (true, [])
  else
    match lookupFieldValidator fieldName with
    | some v => v value
    | none => validateText value

/-! ## Row Validator -/

/-- Embedding of `validateRow`: the Field Rule Table applied to each
`(header, value)` pair at matching index, over the indices below both list
lengths. -/
def validateRow (rowData headers : List Str) : List ValidationError :=
  (List.range (min headers.length rowData.length)).filterMap (fun i =>
    let fieldName := headers.getD i []
    let value := rowData.getD i []
    let r := validateField fieldName value
    if r.1 then none
    else some { field := fieldName, column := (i : Int) + 1, value := value, error := r.2 })

/-- Triple `(year, month, day)` of `parseDate` (the `Date` object of a
validated 8-digit string is determined by its components; comparison of two
such `Date`s is the lexicographic comparison of the triples). -/
def parseDate (dateStr : Str) : Nat × Nat × Nat :=
  (digitsToNat (dateStr.take 4), digitsToNat ((dateStr.drop 4).take 2),
   digitsToNat (dateStr.drop 6))

/-- Lexicographic strict order on `(year, month, day)` triples, the order of
the corresponding `Date` values for calendar-valid dates. -/
def dateLt (a b : Nat × Nat × Nat) : Bool :=
  a.1 < b.1 ∨ (a.1 = b.1 ∧ (a.2.1 < b.2.1 ∨ (a.2.1 = b.2.1 ∧ a.2.2 < b.2.2)))

/-- Billing-date-range block of `validateCrossFieldRow`. -/
def billingRangeErrors (rowDict : List (Str × Str)) (headers : List Str) :
    List ValidationError :=
  let billingStart := dictGet rowDict (str "BILLING_START_DATE")
  let billingEnd := dictGet rowDict (str "BILLING_END_DATE")
  if billingStart ≠ [] ∧ billingEnd ≠ [] then
    if (validateDate billingStart).1 ∧ (validateDate billingEnd).1 then
      if dateLt (parseDate billingEnd) (parseDate billingStart) then
        [{ field := str "BILLING_START_DATE",
           column := jsIndexOf headers (str "BILLING_START_DATE") + 1,
           value := billingStart,
           error := str "Billing start date must be on or before billing end date" },
         { field := str "BILLING_END_DATE",
           column := jsIndexOf headers (str "BILLING_END_DATE") + 1,
           value := billingEnd,
           error := str "Billing end date must be on or after billing start date" }]
      else []
    else []
  else []

/-- Units block of `validateCrossFieldRow` (non-adjustment quantity rule).
Note the outer guard: the block only runs when the units value is truthy,
i.e. non-empty. -/
def unitsRuleErrors (rowDict : List (Str × Str)) (headers : List Str) :
    List ValidationError :=
  let lineItemType := dictGet rowDict (str "LINE_ITEM_TYPE")
  let unitsField := dictGet rowDict (str "LINE_ITEM_NUMBER_OF_UNITS")
  if lineItemType ≠ [] ∧ unitsField ≠ [] then
    let isAdjustmentType := [str "IF", str "IE"].contains (toUpperJS lineItemType)
    let unitsValue := parseFloat unitsField
    if ¬ isAdjustmentType ∧ (unitsField = [] ∨ trim unitsField = [] ∨ unitsValue = some 0) then
      [{ field := str "LINE_ITEM_NUMBER_OF_UNITS",
         column := jsIndexOf headers (str "LINE_ITEM_NUMBER_OF_UNITS") + 1,
         value := unitsField,
         error := str "Units cannot be 0 or null for non-adjustment line items (F, E)" }]
    else []
  else []

/-- Unit-cost block of `validateCrossFieldRow` (non-adjustment cost rule). -/
def unitCostRuleErrors (rowDict : List (Str × Str)) (headers : List Str) :
    List ValidationError :=
  let lineItemType := dictGet rowDict (str "LINE_ITEM_TYPE")
  let unitCostField := dictGet rowDict (str "LINE_ITEM_UNIT_COST")
  if lineItemType ≠ [] ∧ unitCostField ≠ [] then
    let isAdjustmentType := [str "IF", str "IE"].contains (toUpperJS lineItemType)
    let unitCostValue := parseFloat (stripNum unitCostField)
    if ¬ isAdjustmentType ∧
        (unitCostField = [] ∨ trim unitCostField = [] ∨ unitCostValue = some 0) then
      [{ field := str "LINE_ITEM_UNIT_COST",
         column := jsIndexOf headers (str "LINE_ITEM_UNIT_COST") + 1,
         value := unitCostField,
         error := str "Unit cost cannot be 0 or null for non-adjustment line items (F, E)" }]
    else []
  else []

/-- Type-conditional required-field block of `validateCrossFieldRow`: type `F`
requires task code, timekeeper id and description; type `E` requires expense
code.  The fields are read through the row dictionary, so a field absent from
the headers reads as empty and still triggers its error (with column
`indexOf + 1 = 0`). -/
def typeRequiredErrors (rowDict : List (Str × Str)) (headers : List Str) :
    List ValidationError :=
  let lineItemType := dictGet rowDict (str "LINE_ITEM_TYPE")
  if lineItemType ≠ [] then
    let t := toUpperJS lineItemType
    (if t = str "F" then
      let taskCode := dictGet rowDict (str "LINE_ITEM_TASK_CODE")
      let timekeeperId := dictGet rowDict (str "TIMEKEEPER_ID")
      let description := dictGet rowDict (str "LINE_ITEM_DESCRIPTION")
      (if taskCode = [] ∨ trim taskCode = [] then
        [{ field := str "LINE_ITEM_TASK_CODE",
           column := jsIndexOf headers (str "LINE_ITEM_TASK_CODE") + 1,
           value := taskCode,
           error := str "Task code is required for fee line items (F)" }]
      else []) ++
      (if timekeeperId = [] ∨ trim timekeeperId = [] then
        [{ field := str "TIMEKEEPER_ID",
           column := jsIndexOf headers (str "TIMEKEEPER_ID") + 1,
           value := timekeeperId,
           error := str "Timekeeper ID is required for fee line items (F)" }]
      else []) ++
      (if description = [] ∨ trim description = [] then
        [{ field := str "LINE_ITEM_DESCRIPTION",
           column := jsIndexOf headers (str "LINE_ITEM_DESCRIPTION") + 1,
           value := description,
           error := str "Description is required for fee line items (F)" }]
      else [])
    else []) ++
    (if t = str "E" then
      let expenseCode := dictGet rowDict (str "LINE_ITEM_EXPENSE_CODE")
      (if expenseCode = [] ∨ trim expenseCode = [] then
        [{ field := str "LINE_ITEM_EXPENSE_CODE",
           column := jsIndexOf headers (str "LINE_ITEM_EXPENSE_CODE") + 1,
           value := expenseCode,
           error := str "Expense code is required for expense line items (E)" }]
      else [])
    else [])
  else []

/-- Shared message of the line-total reconciliation block, attached verbatim
to every participating field. -/
def calcErrorMessage (unitsD unitCostD adjustmentD taxD calculated lineTotalD : ℚ) : Str :=
  str "Line item calculation error: " ++ numToStr unitsD ++ str " × " ++
  numToStr unitCostD ++ str " + " ++ numToStr adjustmentD ++ str " + " ++
  numToStr taxD ++ str " should equal " ++ toFixed2 calculated ++
  str ", but total shows " ++ numToStr lineTotalD

/-- Line-total reconciliation block of `validateCrossFieldRow`: evaluated only
when units, unit cost and line total are all non-empty; unit cost, adjustment,
tax and total are stripped of non-numeric characters, unparsable values
coerce to 0 (`parseFloat(...) || 0`); an absolute difference above `0.01`
emits the same message on units, unit cost, total and, when non-empty, on
adjustment and tax. -/
def lineTotalCalcErrors (rowDict : List (Str × Str)) (headers : List Str) :
    List ValidationError :=
  let units := dictGet rowDict (str "LINE_ITEM_NUMBER_OF_UNITS")
  let unitCost := dictGet rowDict (str "LINE_ITEM_UNIT_COST")
  let adjustment := dictGet rowDict (str "LINE_ITEM_ADJUSTMENT_AMOUNT")
  let tax := dictGet rowDict (str "LINE_ITEM_TAX_TOTAL")
  let lineTotal := dictGet rowDict (str "LINE_ITEM_TOTAL")
  if units ≠ [] ∧ unitCost ≠ [] ∧ lineTotal ≠ [] then
    let unitsDecimal := (parseFloat units).getD 0
    let unitCostDecimal := (parseFloat (stripNum unitCost)).getD 0
    let adjustmentDecimal := (parseFloat (stripNum adjustment)).getD 0
    let taxDecimal := (parseFloat (stripNum tax)).getD 0
    let lineTotalDecimal := (parseFloat (stripNum lineTotal)).getD 0
    let calculatedTotal := qadd (qadd (qmul unitsDecimal unitCostDecimal) adjustmentDecimal) taxDecimal
    if mkRat 1 100 < qabs (qsub calculatedTotal lineTotalDecimal) then
      let errorMessage := calcErrorMessage unitsDecimal unitCostDecimal
        adjustmentDecimal taxDecimal calculatedTotal lineTotalDecimal
      [{ field := str "LINE_ITEM_NUMBER_OF_UNITS",
         column := jsIndexOf headers (str "LINE_ITEM_NUMBER_OF_UNITS") + 1,
         value := units, error := errorMessage },
       { field := str "LINE_ITEM_UNIT_COST",
         column := jsIndexOf headers (str "LINE_ITEM_UNIT_COST") + 1,
         value := unitCost, error := errorMessage }] ++
      (if adjustment ≠ [] then
        [{ field := str "LINE_ITEM_ADJUSTMENT_AMOUNT",
           column := jsIndexOf headers (str "LINE_ITEM_ADJUSTMENT_AMOUNT") + 1,
           value := adjustment, error := errorMessage }]
      else []) ++
      (if tax ≠ [] then
        [{ field := str "LINE_ITEM_TAX_TOTAL",
           column := jsIndexOf headers (str "LINE_ITEM_TAX_TOTAL") + 1,
           value := tax, error := errorMessage }]
      else []) ++
      [{ field := str "LINE_ITEM_TOTAL",
         column := jsIndexOf headers (str "LINE_ITEM_TOTAL") + 1,
         value := lineTotal, error := errorMessage }]
    else []
  else []

/-- Embedding of `validateCrossFieldRow`: the five intra-row blocks in source
order, pushing into one error list. -/
def validateCrossFieldRow (rowData headers : List Str) : List ValidationError :=
  let rowDict := mkRowDict headers rowData
  billingRangeErrors rowDict headers ++ unitsRuleErrors rowDict headers ++
  unitCostRuleErrors rowDict headers ++ typeRequiredErrors rowDict headers ++
  lineTotalCalcErrors rowDict headers

/-! ## Dataset Validator (cross-row checks) -/

/-- Push of one value into a string-keyed group map (the
`if (!m[key]) m[key] = []; m[key].push(v)` idiom): an existing key's list is
extended, a fresh key is appended with a singleton list. -/
def groupPush {α : Type} : List (Str × List α) → Str → α → List (Str × List α)
  | [], k, v => [(k, [v])]
  | p :: m, k, v => if p.1 = k then (p.1, p.2 ++ [v]) :: m else p :: groupPush m k v

/-- Lookup of a key's list in a group map (`m[k]`, or `[]` when absent). -/
def groupGet {α : Type} (m : List (Str × List α)) (k : Str) : List α :=
  ((m.find? (fun p => p.1 = k)).map Prod.snd).getD []

/-- Folding a list of keyed items into a group map; the grouping passes of
the three cross-row checks are instances of this fold. -/
def groupFold {α : Type} (items : List (Str × α)) (m : List (Str × List α)) :
    List (Str × List α) :=
  items.foldl (fun m kv => groupPush m kv.1 kv.2) m

/-- Invoice-identifier fields used to group rows into logical invoices. -/
def invoiceIdentifierFields : List Str :=
  [str "INVOICE_DATE", str "LAW_FIRM_NAME", str "CLIENT_NAME", str "INVOICE_NUMBER"]

/-- Identifier fields actually present in the header list. -/
def availableIdentifiers (headers : List Str) : List Str :=
  invoiceIdentifierFields.filter (fun f => headers.contains f)

/-- Composite invoice key of one row: the values of the present identifier
fields joined with `|`. -/
def invoiceKey (headers : List Str) (rowData : List Str) : Str :=
  List.intercalate (str "|")
    ((availableIdentifiers headers).map (fun f => dictGet (mkRowDict headers rowData) f))

/-- Human-readable invoice identifier rebuilt from a composite key:
`FIELD=value` pairs joined with `, `, dropping pairs whose value piece is
empty (parts are recovered by splitting the key on `|`; an out-of-range index
would read as `undefined` in the source template literal). -/
def identifierString (headers : List Str) (invoiceKey : Str) : Str :=
  let identifierParts := invoiceKey.splitOn '|'
  List.intercalate (str ", ")
    (((availableIdentifiers headers).enum.map (fun p =>
        p.2 ++ str "=" ++ identifierParts.getD p.1 (str "undefined"))).filter
      (fun part => ¬ endsWith part (str "=")))

/-- Grouping pass of `validateInvoiceTotalsConsistency`: rows indexed from 0,
each contributing `(rowIndex, INVOICE_TOTAL value)` under its invoice key. -/
def consistencyGroups (dataset : List (List Str)) (headers : List Str) :
    List (Str × List (Nat × Str)) :=
  dataset.enum.foldl (fun m p =>
    groupPush m (invoiceKey headers p.2)
      (p.1, dictGet (mkRowDict headers p.2) (str "INVOICE_TOTAL"))) []

/-- Distinct numeric invoice totals of one group, in first-seen order (the
`Set<number>` of the source): empty values are skipped, values are stripped
of non-numeric characters, `NaN` results are skipped. -/
def distinctTotals (g : List (Nat × Str)) : List ℚ :=
  g.foldl (fun acc p =>
    if p.2 ≠ [] then
      match parseFloat (stripNum p.2) with
      | some q => if q ∈ acc then acc else acc ++ [q]
      | none => acc
    else acc) []

/-- Strict order underlying the default JavaScript `Array.prototype.sort`
comparator: lexicographic comparison of the code units of the printed
strings. -/
def strLtJS : Str → Str → Bool
  | [], [] => false
  | [], _ :: _ => true
  | _ :: _, [] => false
  | a :: as, b :: bs =>
    if a.toNat < b.toNat then true
    else if b.toNat < a.toNat then false
    else strLtJS as bs

/-- Insertion of a rational into a list sorted by the default JavaScript
string comparison of the printed numbers. -/
def insertSortJS (x : ℚ) : List ℚ → List ℚ
  | [] => [x]
  | y :: ys =>
    if strLtJS (numToStr x) (numToStr y) then x :: y :: ys else y :: insertSortJS x ys

/-- Embedding of the default (comparator-less) JavaScript `Array.sort` on an
array of numbers: sorts by the string representations, lexicographically. -/
def sortJS (l : List ℚ) : List ℚ := l.foldr insertSortJS []

/-- Error record built for one inconsistent invoice group. -/
def consistencyError (headers : List Str) (key : Str) (g : List (Nat × Str)) :
    DatasetValidationError :=
  { type := str "invoice_consistency",
    invoice_identifier := identifierString headers key,
    error := str "Invoice has inconsistent totals: " ++
      List.intercalate (str ", ") ((sortJS (distinctTotals g)).map numToStr),
    affected_rows := g.map (fun p => p.1 + 1) }

/-- Embedding of `validateInvoiceTotalsConsistency`: groups of size at most 1
are skipped; a group with more than one distinct numeric total yields one
error. -/
def validateInvoiceTotalsConsistency (dataset : List (List Str))
    (headers : List Str) : List DatasetValidationError :=
  if ¬ headers.contains (str "INVOICE_TOTAL") then []
  else if availableIdentifiers headers = [] then []
  else
    (consistencyGroups dataset headers).filterMap (fun p =>
      if p.2.length ≤ 1 then none
      else if 1 < (distinctTotals p.2).length then
        some (consistencyError headers p.1 p.2)
      else none)

/-- Grouping pass of `validateUniqueLineItemNumbers`: each row whose
`LINE_ITEM_NUMBER` value (at the given column) is non-empty and not
whitespace-only contributes its 1-based row number under that value. -/
def lineItemNumberGroups (dataset : List (List Str)) (idx : Nat) :
    List (Str × List Nat) :=
  dataset.enum.foldl (fun m p =>
    let lineItemNumber := p.2.getD idx []
    if lineItemNumber ≠ [] ∧ trim lineItemNumber ≠ [] then
      groupPush m lineItemNumber (p.1 + 1)
    else m) []

/-- Embedding of `validateUniqueLineItemNumbers`: across the whole dataset, a
non-empty `LINE_ITEM_NUMBER` value appearing on more than one row yields one
uniqueness error listing all its rows. -/
def validateUniqueLineItemNumbers (dataset : List (List Str))
    (headers : List Str) : List DatasetValidationError :=
  match headers.findIdx? (fun h => h = str "LINE_ITEM_NUMBER") with
  | none => []
  | some lineItemNumberIndex =>
    (lineItemNumberGroups dataset lineItemNumberIndex).filterMap (fun p =>
      if 1 < p.2.length then
        some { type := str "line_item_uniqueness",
               invoice_identifier := str "LINE_ITEM_NUMBER=" ++ p.1,
               error := str "Line item number " ++ p.1 ++ str " is not unique",
               affected_rows := p.2 }
      else none)

/-- Grouping pass of `validateInvoiceNetTotalCalculation`: each row
contributes `(rowIndex, INVOICE_NET_TOTAL value, LINE_ITEM_TOTAL value)`
under its invoice key. -/
def netTotalGroups (dataset : List (List Str)) (headers : List Str) :
    List (Str × List (Nat × Str × Str)) :=
  dataset.enum.foldl (fun m p =>
    let rowDict := mkRowDict headers p.2
    groupPush m (invoiceKey headers p.2)
      (p.1, dictGet rowDict (str "INVOICE_NET_TOTAL"),
       dictGet rowDict (str "LINE_ITEM_TOTAL"))) []

/-- Sum and count of the parsable line-item totals of one group. -/
def sumLineItemTotals (g : List (Nat × Str × Str)) : ℚ × Nat :=
  g.foldl (fun acc e =>
    let lineItemTotal := e.2.2
    if lineItemTotal ≠ [] ∧ trim lineItemTotal ≠ [] then
      match parseFloat (stripNum lineItemTotal) with
      | some v => (qadd acc.1 v, acc.2 + 1)
      | none => acc
    else acc) (0, 0)

/-- Embedding of `validateInvoiceNetTotalCalculation`: the expected net total
is the first row's `INVOICE_NET_TOTAL`; the sum of the group's parsable
`LINE_ITEM_TOTAL` values must match it within `0.01` whenever at least one
line item contributed.  A `NaN` expected value makes the comparison false in
the source, hence no error (`none` branch). -/
def validateInvoiceNetTotalCalculation (dataset : List (List Str))
    (headers : List Str) : List DatasetValidationError :=
  if ¬ headers.contains (str "INVOICE_NET_TOTAL") ∨
      ¬ headers.contains (str "LINE_ITEM_TOTAL") then []
  else if availableIdentifiers headers = [] then []
  else
    (netTotalGroups dataset headers).filterMap (fun p =>
      match p.2 with
      | [] => none
      | first :: _ =>
        let expectedNetTotal := first.2.1
        if expectedNetTotal = [] ∨ trim expectedNetTotal = [] then none
        else
          match parseFloat (stripNum expectedNetTotal) with
          | none => none
          | some expectedNetTotalValue =>
            let s := sumLineItemTotals p.2
            if 0 < s.2 then
              if mkRat 1 100 < qabs (qsub s.1 expectedNetTotalValue) then
                some { type := str "invoice_net_total_calculation",
                       invoice_identifier := identifierString headers p.1,
                       error := str "Invoice net total (" ++
                         numToStr expectedNetTotalValue ++
                         str ") does not equal sum of line item totals (" ++
                         toFixed2 s.1 ++ str ")",
                       affected_rows := p.2.map (fun e => e.1 + 1) }
              else none
            else none)

/-! ## Orchestrator -/

/-- Embedding of `validateDataset`: per row, field errors then cross-field
errors, each stamped with the 1-based row number; then the three cross-row
checks concatenated in source order. -/
def validateDataset (dataset : List (List Str)) (headers : List Str) :
    ValidationResult :=
  { row_errors := (dataset.enum.map (fun p =>
      ((validateRow p.2 headers).map (fun e => { e with row := some (p.1 + 1) })) ++
      ((validateCrossFieldRow p.2 headers).map (fun e => { e with row := some (p.1 + 1) })))).flatten,
    dataset_errors :=
      validateInvoiceTotalsConsistency dataset headers ++
      validateUniqueLineItemNumbers dataset headers ++
      validateInvoiceNetTotalCalculation dataset headers }

/-! ## Format Codec (`LedesFileHandler`, file-handler module) -/

/-- Version-banner test `/^LEDES98BI\s+V\d+\[\]$/`: the literal `LEDES98BI`,
one or more whitespace characters, `V`, one or more digits, then `[]`, with
nothing before or after. -/
def isVersionBanner (l : Str) : Bool :=
  if l.take 9 = str "LEDES98BI" then
    let r := (l.drop 9)
    let ws := r.takeWhile isWS
    let r2 := r.drop ws.length
    decide (ws ≠ []) &&
      (match r2 with
       | 'V' :: r3 =>
         let ds := r3.takeWhile isDigitCh
         decide (ds ≠ []) && decide (r3.drop ds.length = str "[]")
       | _ => false)
  else false

/-- Removal of a trailing `[]` marker (`replace(/\[\]$/, "")`). -/
def stripBrackets (h : Str) : Str :=
  if endsWith h (str "[]") then h.take (h.length - 2) else h

/-- Header-line scan of `parseFile`: among at most the first 3 lines, the
first line containing a pipe that is not the version banner, paired with the
data-start index (its position + 1). -/
def findHeaderLine (lines : List Str) : Option (Str × Nat) :=
  ((lines.take 3).enum.find? (fun p => p.2.contains '|' ∧ ¬ isVersionBanner p.2)).map
    (fun p => (p.2, p.1 + 1))

/-- Data-line filter of `parseFile`: drop blank lines, version banners and
header-style lines (every pipe-split field of the trimmed line ends with
`[]`); what remains must contain a pipe. -/
def keepDataLine (line : Str) : Bool :=
  let trimmedLine := trim line
  if trimmedLine = [] then false
  else if isVersionBanner trimmedLine then false
  else if containsSub trimmedLine (str "[]") ∧ endsWith trimmedLine (str "[]") ∧
      (trimmedLine.splitOn '|').all (fun field => endsWith (trim field) (str "[]")) then
    false
  else if ¬ trimmedLine.contains '|' then false
  else true

/-- Padding `while (fields.length < headers.length) fields.push("")`. -/
def padTo (fields : List Str) (n : Nat) : List Str :=
  fields ++ List.replicate (n - fields.length) []

/-- Row object built from one data line's fields:
`headers.forEach((header, i) => row[header] = (fields[i] || "").trim())`. -/
def mkParsedRow (headers fields : List Str) : List (Str × Str) :=
  headers.enum.foldl (fun m p => objSet m p.2 (trim (fields.getD p.1 []))) []

/-- Embedding of `LedesFileHandler.parseFile`: split into non-blank lines,
fail on emptiness, locate the header line (or fall back to the canonical
list), then filter and parse the data lines. -/
def parseFile (content : Str) : Except Str LedesData :=
  let lines := (content.splitOn '\n').filter (fun line => decide (trim line ≠ []))
  if lines.length = 0 then .error (str "File is empty")
  else
    let hd := findHeaderLine lines
    let headers :=
      match hd with
      | some p => (p.1.splitOn '|').map (fun h => trim (stripBrackets (trim h)))
      | none => LEDES_HEADERS
    let dataStartIndex := match hd with | some p => p.2 | none => 0
    let dataLines := lines.drop dataStartIndex
    let rows := (dataLines.filter keepDataLine).map (fun line =>
      let fields := padTo (line.splitOn '|') headers.length
      mkParsedRow headers fields)
    .ok { headers := headers, rows := rows }

/-- Embedding of `LedesFileHandler.formatForDownload`: the header line with
`[]` suffixes, then each row's values in header order, joined with pipes and
newlines. -/
def formatForDownload (data : LedesData) : Str :=
  let headerLine := List.intercalate (str "|") (data.headers.map (fun h => h ++ str "[]"))
  let dataLines := data.rows.map (fun row =>
    List.intercalate (str "|") (data.headers.map (fun header => dictGet row header)))
  List.intercalate (str "\n") (headerLine :: dataLines)

/-- Embedding of `LedesFileHandler.createEmptyRow`. -/
def createEmptyRow (headers : List Str) : List (Str × Str) :=
  headers.foldl (fun m header => objSet m header []) []

/-- Key list of a JavaScript object built by assigning keys in order: first
occurrences keep their position, later assignments to the same key do not add
a new entry.  Used to state invariants of parsed rows. -/
def dedupKeepFirst (l : List Str) : List Str :=
  l.foldl (fun acc h => if h ∈ acc then acc else acc ++ [h]) []

/-! ## Bridge lemmas: the computable rational operations agree with the
standard ones -/

theorem qmul_eq (a b : ℚ) : qmul a b = a * b := by
  rw [qmul, Rat.mkRat_eq_div]
  push_cast
  conv_rhs => rw [← Rat.num_div_den a, ← Rat.num_div_den b]
  rw [div_mul_div_comm]

theorem qadd_eq (a b : ℚ) : qadd a b = a + b := by
  rw [qadd, Rat.mkRat_eq_div]
  push_cast
  conv_rhs => rw [← Rat.num_div_den a, ← Rat.num_div_den b]
  rw [div_add_div _ _ (by positivity) (by positivity)]
  ring_nf

theorem qsub_eq (a b : ℚ) : qsub a b = a - b := by
  rw [qsub, Rat.mkRat_eq_div]
  push_cast
  conv_rhs => rw [← Rat.num_div_den a, ← Rat.num_div_den b]
  rw [div_sub_div _ _ (by positivity) (by positivity)]
  ring_nf

theorem qabs_eq (a : ℚ) : qabs a = |a| := by
  rw [qabs, Rat.mkRat_eq_div]
  push_cast
  conv_rhs => rw [← Rat.num_div_den a]
  rw [abs_div, abs_of_nonneg (show (0:ℚ) ≤ (a.den : ℚ) by positivity)]

theorem mkRat_one_hundred : mkRat 1 100 = 1 / 100 := by
  rw [Rat.mkRat_eq_div]
  norm_num

/-! ## Helper lemmas: embedded objects and lookups -/

theorem dictGet_nil (k : Str) : dictGet [] k = [] := rfl

theorem dictGet_cons (p : Str × Str) (m : List (Str × Str)) (k : Str) :
    dictGet (p :: m) k = if p.1 = k then p.2 else dictGet m k := by
  simp only [dictGet, List.find?_cons]
  by_cases h : p.1 = k <;> simp [h]

theorem dictGet_objSet (m : List (Str × Str)) (k v k' : Str) :
    dictGet (objSet m k v) k' = if k' = k then v else dictGet m k' := by
  induction m with
  | nil =>
    show dictGet [(k, v)] k' = _
    rw [dictGet_cons]
    by_cases h : k' = k
    · rw [if_pos h.symm, if_pos h]
    · rw [if_neg (fun he => h he.symm), if_neg h, dictGet_nil]
  | cons p m ih =>
    simp only [objSet]
    by_cases hp : p.1 = k
    · rw [if_pos hp, dictGet_cons]
      by_cases h : k' = k
      · rw [if_pos h.symm, if_pos h]
      · rw [if_neg (fun he => h he.symm), if_neg h, dictGet_cons,
          if_neg (fun he => h (hp.symm.trans he).symm)]
    · rw [if_neg hp, dictGet_cons, ih]
      by_cases h : p.1 = k'
      · rw [if_pos h, if_neg (fun he => hp (h.trans he)), dictGet_cons, if_pos h]
      · rw [if_neg h]
        by_cases h2 : k' = k
        · rw [if_pos h2, if_pos h2]
        · rw [if_neg h2, if_neg h2, dictGet_cons, if_neg h]

theorem keys_objSet (m : List (Str × Str)) (k v : Str) :
    (objSet m k v).map Prod.fst =
      if k ∈ m.map Prod.fst then m.map Prod.fst else m.map Prod.fst ++ [k] := by
  induction m with
  | nil => simp [objSet]
  | cons p m ih =>
    by_cases hp : p.1 = k
    · rw [objSet, if_pos hp]
      simp [hp]
    · rw [objSet, if_neg hp, List.map_cons, List.map_cons, ih]
      by_cases hk : k ∈ m.map Prod.fst
      · rw [if_pos hk, if_pos (List.mem_cons.mpr (Or.inr hk))]
      · rw [if_neg hk, if_neg (by
          rw [List.mem_cons]
          rintro (he | he)
          · exact hp he.symm
          · exact hk he)]
        simp

theorem dictGet_not_mem_keys (m : List (Str × Str)) (k : Str)
    (h : ¬ k ∈ m.map Prod.fst) : dictGet m k = [] := by
  induction m with
  | nil => rfl
  | cons p m ih =>
    rw [List.map_cons, List.mem_cons] at h
    push_neg at h
    rw [dictGet_cons, if_neg (fun he => h.1 he.symm), ih h.2]

theorem keys_mkRowDict_mem (headers values : List Str) (x : Str)
    (h : x ∈ (mkRowDict headers values).map Prod.fst) : x ∈ headers := by
  have aux : ∀ (L : List (Nat × Str)) (m : List (Str × Str)),
      (∀ y ∈ m.map Prod.fst, y ∈ headers) → (∀ p ∈ L, p.2 ∈ headers) →
      ∀ y ∈ ((L.foldl (fun m p => objSet m p.2 (values.getD p.1 [])) m).map Prod.fst),
        y ∈ headers := by
    intro L
    induction L with
    | nil => intro m hm _ y hy; exact hm y hy
    | cons q L ih =>
      intro m hm hL y hy
      refine ih (objSet m q.2 (values.getD q.1 [])) ?_ (fun p hp => hL p (by simp [hp])) y hy
      intro z hz
      rw [keys_objSet] at hz
      by_cases hq : q.2 ∈ m.map Prod.fst
      · rw [if_pos hq] at hz; exact hm z hz
      · rw [if_neg hq, List.mem_append] at hz
        rcases hz with hz | hz
        · exact hm z hz
        · rw [List.mem_singleton] at hz
          rw [hz]; exact hL q (List.mem_cons_self q L)
  refine aux headers.enum [] (by simp) (fun p hp => ?_) x h
  have hsnd := List.enum_map_snd headers
  exact hsnd ▸ List.mem_map_of_mem Prod.snd hp

theorem dictGet_mkRowDict_not_mem (headers values : List Str) (f : Str)
    (h : ¬ f ∈ headers) : dictGet (mkRowDict headers values) f = [] :=
  dictGet_not_mem_keys _ _ (fun hmem => h (keys_mkRowDict_mem headers values f hmem))

theorem jsIndexOf_not_mem (l : List Str) (x : Str) (h : ¬ x ∈ l) :
    jsIndexOf l x = -1 := by
  unfold jsIndexOf
  have hn : l.findIdx? (fun h => decide (h = x)) = none := by
    rw [List.findIdx?_eq_none_iff]
    intro y hy
    simp only [decide_eq_false_iff_not]
    exact fun he => h (he ▸ hy)
  rw [hn]

/-! ## Claim C1 -/

/-- C1 (code evidence): `validateField` returns pass on every empty or
whitespace-only value for **every** field identifier — the early "optional
fields" return runs before the dispatch table is consulted — even though the
dispatch table binds the required-variant validators (which do reject empty
values with a "required" message) to `LINE_ITEM_DATE`, `LINE_ITEM_TOTAL`,
`INVOICE_NET_TOTAL`, `LAW_FIRM_ID` and `CLIENT_TAX_ID`.  The claim's required
branch is unreachable through `validateField`. -/
theorem c1_empty_value_always_passes :
    (∀ fieldName value : Str, trim value = [] → validateField fieldName value = (true, [])) ∧
    validateRequiredDate [] = (false, str "Date is required") ∧
    validateRequiredDecimal [] = (false, str "Value is required") ∧
    validateRequiredText [] = (false, str "Field is required") ∧
    lookupFieldValidator (str "LINE_ITEM_DATE") = some validateRequiredDate ∧
    lookupFieldValidator (str "LINE_ITEM_TOTAL") = some validateRequiredDecimal ∧
    lookupFieldValidator (str "INVOICE_NET_TOTAL") = some validateRequiredDecimal ∧
    lookupFieldValidator (str "LAW_FIRM_ID") = some validateRequiredText ∧
    lookupFieldValidator (str "CLIENT_TAX_ID") = some validateRequiredText := by
  refine ⟨?_, by decide, by decide, by decide, rfl, rfl, rfl, rfl, rfl⟩
  intro fieldName value h
  unfold validateField
  rw [if_pos (Or.inr h)]

/-- C1 witness: the required-date field `LINE_ITEM_DATE` on a whitespace-only
value, evaluated through the theorem. -/
theorem c1_empty_value_always_passes_witness :
    trim (str " ") = [] ∧ validateField (str "LINE_ITEM_DATE") (str " ") = (true, []) :=
  ⟨by decide, c1_empty_value_always_passes.1 (str "LINE_ITEM_DATE") (str " ") (by decide)⟩

/-! ## Claim C9 -/

/-- C9: `parseFile` fails, with the empty-input error, exactly when nothing
remains after discarding blank (whitespace-only) lines; on every other input
it returns a dataset without aborting. -/
theorem c9_parse_empty_input :
    ∀ content : Str,
      (parseFile content = Except.error (str "File is empty") ↔
        (content.splitOn '\n').filter (fun line => decide (trim line ≠ [])) = []) ∧
      ((content.splitOn '\n').filter (fun line => decide (trim line ≠ [])) ≠ [] →
        ∃ d, parseFile content = Except.ok d) := by
  intro content
  by_cases h : (content.splitOn '\n').filter (fun line => decide (trim line ≠ [])) = []
  · have hlen : ((content.splitOn '\n').filter (fun line => decide (trim line ≠ []))).length = 0 := by
      rw [h]; rfl
    constructor
    · exact ⟨fun _ => h, fun _ => by simp only [parseFile]; rw [if_pos hlen]⟩
    · exact fun hne => absurd h hne
  · have hlen : ¬ ((content.splitOn '\n').filter (fun line => decide (trim line ≠ []))).length = 0 := by
      simpa [List.length_eq_zero] using h
    constructor
    · refine iff_of_false (fun he => ?_) h
      rw [show parseFile content = Except.ok
            { headers :=
                match findHeaderLine ((content.splitOn '\n').filter (fun line => decide (trim line ≠ []))) with
                | some p => (p.1.splitOn '|').map (fun h => trim (stripBrackets (trim h)))
                | none => LEDES_HEADERS,
              rows := _ } from by simp only [parseFile]; rw [if_neg hlen]] at he
      exact Except.noConfusion he
    · exact fun _ => ⟨_, by simp only [parseFile]; rw [if_neg hlen]⟩

/-- C9 witness: a one-line pipe-delimited input, evaluated through the
theorem. -/
theorem c9_parse_empty_input_witness :
    ((str "a|b").splitOn '\n').filter (fun line => decide (trim line ≠ [])) ≠ [] ∧
    ∃ d, parseFile (str "a|b") = Except.ok d :=
  ⟨by decide, (c9_parse_empty_input (str "a|b")).2 (by decide)⟩

/-! ## Claim C2 -/

theorem consistencyGroups_singleton (headers row : List Str) :
    consistencyGroups [row] headers =
      [(invoiceKey headers row, [(0, dictGet (mkRowDict headers row) (str "INVOICE_TOTAL"))])] := rfl

/-- Single-row datasets form one group of size 1, which the consistency check
skips. -/
theorem invoiceTotalsConsistency_singleton (headers row : List Str) :
    validateInvoiceTotalsConsistency [row] headers = [] := by
  unfold validateInvoiceTotalsConsistency
  split_ifs with h1 h2
  any_goals rfl

/-- Every uniqueness error carries the `line_item_uniqueness` tag. -/
theorem uniqError_type (dataset : List (List Str)) (headers : List Str)
    (e : DatasetValidationError)
    (he : e ∈ validateUniqueLineItemNumbers dataset headers) :
    e.type = str "line_item_uniqueness" := by
  unfold validateUniqueLineItemNumbers at he
  split at he
  · exact absurd he (List.not_mem_nil e)
  · rw [List.mem_filterMap] at he
    obtain ⟨p, -, hp⟩ := he
    split at hp
    · obtain rfl := Option.some.inj hp
      rfl
    · exact Option.noConfusion hp

/-- Every net-total error carries the `invoice_net_total_calculation` tag. -/
theorem netTotalError_type (dataset : List (List Str)) (headers : List Str)
    (e : DatasetValidationError)
    (he : e ∈ validateInvoiceNetTotalCalculation dataset headers) :
    e.type = str "invoice_net_total_calculation" := by
  unfold validateInvoiceNetTotalCalculation at he
  split_ifs at he
  · exact absurd he (List.not_mem_nil e)
  · exact absurd he (List.not_mem_nil e)
  · rw [List.mem_filterMap] at he
    obtain ⟨p, -, hp⟩ := he
    repeat'
      first
      | exact Option.noConfusion hp
      | (obtain rfl := Option.some.inj hp; rfl)
      | split at hp
      | split_ifs at hp
      | dsimp only at hp

/-- C2 (amended): a single-row dataset never receives an
`invoice_consistency` dataset error (groups of size 1 are skipped by that
check), though — unlike the original claim — the net-total check does apply
to it. -/
theorem c2_single_row_no_consistency_error :
    ∀ (headers row : List Str),
      ∀ e ∈ (validateDataset [row] headers).dataset_errors,
        e.type ≠ str "invoice_consistency" := by
  intro headers row e he
  have hde : (validateDataset [row] headers).dataset_errors =
      validateInvoiceTotalsConsistency [row] headers ++
      validateUniqueLineItemNumbers [row] headers ++
      validateInvoiceNetTotalCalculation [row] headers := rfl
  rw [hde, invoiceTotalsConsistency_singleton, List.nil_append, List.mem_append] at he
  rcases he with h | h
  · rw [uniqError_type [row] headers e h]; decide
  · rw [netTotalError_type [row] headers e h]; decide

/-- C2 witness: the amended theorem applied to a concrete single-row dataset
whose dataset errors are non-empty. -/
theorem c2_single_row_no_consistency_error_witness :
    (⟨str "invoice_net_total_calculation", str "INVOICE_DATE=20240101",
       str "Invoice net total (100) does not equal sum of line item totals (50.00)",
       [1]⟩ : DatasetValidationError) ∈
      (validateDataset [[str "20240101", str "100", str "50"]]
        [str "INVOICE_DATE", str "INVOICE_NET_TOTAL", str "LINE_ITEM_TOTAL"]).dataset_errors ∧
    ¬ (⟨str "invoice_net_total_calculation", str "INVOICE_DATE=20240101",
       str "Invoice net total (100) does not equal sum of line item totals (50.00)",
       [1]⟩ : DatasetValidationError).type = str "invoice_consistency" :=
  ⟨by decide, c2_single_row_no_consistency_error
    [str "INVOICE_DATE", str "INVOICE_NET_TOTAL", str "LINE_ITEM_TOTAL"]
    [str "20240101", str "100", str "50"] _ (by decide)⟩

/-- C2 counterexample: a dataset of exactly one row **is** flagged by the
net-total check when its `INVOICE_NET_TOTAL` differs from its lone
`LINE_ITEM_TOTAL` — refuting the original claim that single-row datasets
never receive an `invoice_net_total_calculation` error. -/
theorem c2_counterexample :
    ((validateDataset [[str "20240101", str "100", str "50"]]
        [str "INVOICE_DATE", str "INVOICE_NET_TOTAL", str "LINE_ITEM_TOTAL"]).dataset_errors).map
      (fun e => e.type) = [str "invoice_net_total_calculation"] := by decide

/-! ## Claim C4 -/

/-- Explicit shape of the type-conditional block on a fee (`F`) row. -/
theorem typeRequired_F_form (d : List (Str × Str)) (headers : List Str)
    (hF : toUpperJS (dictGet d (str "LINE_ITEM_TYPE")) = str "F") :
    typeRequiredErrors d headers =
      (if dictGet d (str "LINE_ITEM_TASK_CODE") = [] ∨
          trim (dictGet d (str "LINE_ITEM_TASK_CODE")) = [] then
        [⟨str "LINE_ITEM_TASK_CODE", jsIndexOf headers (str "LINE_ITEM_TASK_CODE") + 1,
          dictGet d (str "LINE_ITEM_TASK_CODE"),
          str "Task code is required for fee line items (F)", none⟩]
      else []) ++
      (if dictGet d (str "TIMEKEEPER_ID") = [] ∨
          trim (dictGet d (str "TIMEKEEPER_ID")) = [] then
        [⟨str "TIMEKEEPER_ID", jsIndexOf headers (str "TIMEKEEPER_ID") + 1,
          dictGet d (str "TIMEKEEPER_ID"),
          str "Timekeeper ID is required for fee line items (F)", none⟩]
      else []) ++
      (if dictGet d (str "LINE_ITEM_DESCRIPTION") = [] ∨
          trim (dictGet d (str "LINE_ITEM_DESCRIPTION")) = [] then
        [⟨str "LINE_ITEM_DESCRIPTION", jsIndexOf headers (str "LINE_ITEM_DESCRIPTION") + 1,
          dictGet d (str "LINE_ITEM_DESCRIPTION"),
          str "Description is required for fee line items (F)", none⟩]
      else []) := by
  have ht : dictGet d (str "LINE_ITEM_TYPE") ≠ [] := by
    intro h
    rw [h] at hF
    exact absurd hF (by decide)
  unfold typeRequiredErrors
  dsimp only
  rw [if_pos ht, if_pos hF,
    if_neg (show ¬ toUpperJS (dictGet d (str "LINE_ITEM_TYPE")) = str "E" by rw [hF]; decide),
    List.append_nil]

/-- Explicit shape of the type-conditional block on an expense (`E`) row. -/
theorem typeRequired_E_form (d : List (Str × Str)) (headers : List Str)
    (hE : toUpperJS (dictGet d (str "LINE_ITEM_TYPE")) = str "E") :
    typeRequiredErrors d headers =
      (if dictGet d (str "LINE_ITEM_EXPENSE_CODE") = [] ∨
          trim (dictGet d (str "LINE_ITEM_EXPENSE_CODE")) = [] then
        [⟨str "LINE_ITEM_EXPENSE_CODE", jsIndexOf headers (str "LINE_ITEM_EXPENSE_CODE") + 1,
          dictGet d (str "LINE_ITEM_EXPENSE_CODE"),
          str "Expense code is required for expense line items (E)", none⟩]
      else []) := by
  have ht : dictGet d (str "LINE_ITEM_TYPE") ≠ [] := by
    intro h
    rw [h] at hE
    exact absurd hE (by decide)
  unfold typeRequiredErrors
  dsimp only
  rw [if_pos ht,
    if_neg (show ¬ toUpperJS (dictGet d (str "LINE_ITEM_TYPE")) = str "F" by rw [hE]; decide),
    if_pos hE, List.nil_append]

/-- Type-conditional errors are part of the cross-field result. -/
theorem mem_crossField_of_mem_typeRequired (rowData headers : List Str)
    (e : ValidationError)
    (he : e ∈ typeRequiredErrors (mkRowDict headers rowData) headers) :
    e ∈ validateCrossFieldRow rowData headers := by
  unfold validateCrossFieldRow
  dsimp only
  simp only [List.mem_append]
  exact Or.inl (Or.inr he)

/-- C4 (amended): the type-conditional required-field rules are **not**
skipped when the required field is absent from the header list: an absent
field reads as empty through the row dictionary, so a row of type `F`
(respectively `E`) still receives the required-field error for each absent
field, with column number `indexOf + 1 = 0`.  (The other intra-row rules are
guarded by non-emptiness of the very values an absent field cannot supply.) -/
theorem c4_absent_fields_still_flagged :
    ∀ (headers rowData : List Str),
      (toUpperJS (dictGet (mkRowDict headers rowData) (str "LINE_ITEM_TYPE")) = str "F" →
        ∀ f ∈ [str "LINE_ITEM_TASK_CODE", str "TIMEKEEPER_ID", str "LINE_ITEM_DESCRIPTION"],
          ¬ f ∈ headers →
          ∃ e ∈ validateCrossFieldRow rowData headers, e.field = f ∧ e.column = 0) ∧
      (toUpperJS (dictGet (mkRowDict headers rowData) (str "LINE_ITEM_TYPE")) = str "E" →
        ¬ (str "LINE_ITEM_EXPENSE_CODE") ∈ headers →
          ∃ e ∈ validateCrossFieldRow rowData headers,
            e.field = str "LINE_ITEM_EXPENSE_CODE" ∧ e.column = 0) := by
  intro headers rowData
  constructor
  · intro hF f hf habs
    have hval : dictGet (mkRowDict headers rowData) f = [] :=
      dictGet_mkRowDict_not_mem _ _ _ habs
    have hcol : jsIndexOf headers f = -1 := jsIndexOf_not_mem _ _ habs
    simp only [List.mem_cons, List.not_mem_nil, or_false] at hf
    rcases hf with rfl | rfl | rfl
    · refine ⟨⟨str "LINE_ITEM_TASK_CODE",
          jsIndexOf headers (str "LINE_ITEM_TASK_CODE") + 1,
          dictGet (mkRowDict headers rowData) (str "LINE_ITEM_TASK_CODE"),
          str "Task code is required for fee line items (F)", none⟩,
        mem_crossField_of_mem_typeRequired _ _ _ ?_, rfl, by rw [hcol]; rfl⟩
      rw [typeRequired_F_form _ _ hF, if_pos (Or.inl hval)]
      simp
    · refine ⟨⟨str "TIMEKEEPER_ID",
          jsIndexOf headers (str "TIMEKEEPER_ID") + 1,
          dictGet (mkRowDict headers rowData) (str "TIMEKEEPER_ID"),
          str "Timekeeper ID is required for fee line items (F)", none⟩,
        mem_crossField_of_mem_typeRequired _ _ _ ?_, rfl, by rw [hcol]; rfl⟩
      rw [typeRequired_F_form _ _ hF, if_pos (Or.inl hval)]
      simp
    · refine ⟨⟨str "LINE_ITEM_DESCRIPTION",
          jsIndexOf headers (str "LINE_ITEM_DESCRIPTION") + 1,
          dictGet (mkRowDict headers rowData) (str "LINE_ITEM_DESCRIPTION"),
          str "Description is required for fee line items (F)", none⟩,
        mem_crossField_of_mem_typeRequired _ _ _ ?_, rfl, by rw [hcol]; rfl⟩
      rw [typeRequired_F_form _ _ hF, if_pos (Or.inl hval)]
      simp
  · intro hE habs
    have hval : dictGet (mkRowDict headers rowData) (str "LINE_ITEM_EXPENSE_CODE") = [] :=
      dictGet_mkRowDict_not_mem _ _ _ habs
    have hcol : jsIndexOf headers (str "LINE_ITEM_EXPENSE_CODE") = -1 :=
      jsIndexOf_not_mem _ _ habs
    refine ⟨⟨str "LINE_ITEM_EXPENSE_CODE",
        jsIndexOf headers (str "LINE_ITEM_EXPENSE_CODE") + 1,
        dictGet (mkRowDict headers rowData) (str "LINE_ITEM_EXPENSE_CODE"),
        str "Expense code is required for expense line items (E)", none⟩,
      mem_crossField_of_mem_typeRequired _ _ _ ?_, rfl, by rw [hcol]; rfl⟩
    rw [typeRequired_E_form _ _ hE, if_pos (Or.inl hval)]
    simp

/-- C4 witness: a fee-type row with `TIMEKEEPER_ID` absent from a one-field
header list, evaluated through the theorem. -/
theorem c4_absent_fields_still_flagged_witness :
    ∃ e ∈ validateCrossFieldRow [str "F"] [str "LINE_ITEM_TYPE"],
      e.field = str "TIMEKEEPER_ID" ∧ e.column = 0 :=
  (c4_absent_fields_still_flagged [str "LINE_ITEM_TYPE"] [str "F"]).1 (by decide)
    (str "TIMEKEEPER_ID") (by decide) (by decide)

/-- C4 counterexample: with the header list containing only `LINE_ITEM_TYPE`,
a row of type `F` produces the three type-conditional required-field errors
for the absent fields (at column 0) — refuting the claim that such rules are
skipped when the fields are absent from the headers. -/
theorem c4_counterexample :
    validateCrossFieldRow [str "F"] [str "LINE_ITEM_TYPE"] =
      [⟨str "LINE_ITEM_TASK_CODE", 0, [],
        str "Task code is required for fee line items (F)", none⟩,
       ⟨str "TIMEKEEPER_ID", 0, [],
        str "Timekeeper ID is required for fee line items (F)", none⟩,
       ⟨str "LINE_ITEM_DESCRIPTION", 0, [],
        str "Description is required for fee line items (F)", none⟩] := by decide

/-! ## Claims C5 and C6: block characterizations -/

/-- Full characterization of the units-rule block. -/
theorem mem_unitsRule_iff (d : List (Str × Str)) (headers : List Str)
    (e : ValidationError) :
    e ∈ unitsRuleErrors d headers ↔
      (dictGet d (str "LINE_ITEM_TYPE") ≠ [] ∧
       dictGet d (str "LINE_ITEM_NUMBER_OF_UNITS") ≠ [] ∧
       ¬ ([str "IF", str "IE"].contains
            (toUpperJS (dictGet d (str "LINE_ITEM_TYPE"))) = true) ∧
       (dictGet d (str "LINE_ITEM_NUMBER_OF_UNITS") = [] ∨
        trim (dictGet d (str "LINE_ITEM_NUMBER_OF_UNITS")) = [] ∨
        parseFloat (dictGet d (str "LINE_ITEM_NUMBER_OF_UNITS")) = some 0) ∧
       e = ⟨str "LINE_ITEM_NUMBER_OF_UNITS",
            jsIndexOf headers (str "LINE_ITEM_NUMBER_OF_UNITS") + 1,
            dictGet d (str "LINE_ITEM_NUMBER_OF_UNITS"),
            str "Units cannot be 0 or null for non-adjustment line items (F, E)",
            none⟩) := by
  unfold unitsRuleErrors
  dsimp only
  split_ifs with h1 h2
  · constructor
    · intro he
      rw [List.mem_singleton] at he
      exact ⟨h1.1, h1.2, h2.1, h2.2, he⟩
    · intro hc
      rw [List.mem_singleton]
      exact hc.2.2.2.2
  · constructor
    · intro he
      exact absurd he (List.not_mem_nil e)
    · intro hc
      exact absurd ⟨hc.2.2.1, hc.2.2.2.1⟩ h2
  · constructor
    · intro he
      exact absurd he (List.not_mem_nil e)
    · intro hc
      exact absurd ⟨hc.1, hc.2.1⟩ h1

/-- Full characterization of the unit-cost-rule block. -/
theorem mem_unitCostRule_iff (d : List (Str × Str)) (headers : List Str)
    (e : ValidationError) :
    e ∈ unitCostRuleErrors d headers ↔
      (dictGet d (str "LINE_ITEM_TYPE") ≠ [] ∧
       dictGet d (str "LINE_ITEM_UNIT_COST") ≠ [] ∧
       ¬ ([str "IF", str "IE"].contains
            (toUpperJS (dictGet d (str "LINE_ITEM_TYPE"))) = true) ∧
       (dictGet d (str "LINE_ITEM_UNIT_COST") = [] ∨
        trim (dictGet d (str "LINE_ITEM_UNIT_COST")) = [] ∨
        parseFloat (stripNum (dictGet d (str "LINE_ITEM_UNIT_COST"))) = some 0) ∧
       e = ⟨str "LINE_ITEM_UNIT_COST",
            jsIndexOf headers (str "LINE_ITEM_UNIT_COST") + 1,
            dictGet d (str "LINE_ITEM_UNIT_COST"),
            str "Unit cost cannot be 0 or null for non-adjustment line items (F, E)",
            none⟩) := by
  unfold unitCostRuleErrors
  dsimp only
  split_ifs with h1 h2
  · constructor
    · intro he
      rw [List.mem_singleton] at he
      exact ⟨h1.1, h1.2, h2.1, h2.2, he⟩
    · intro hc
      rw [List.mem_singleton]
      exact hc.2.2.2.2
  · constructor
    · intro he
      exact absurd he (List.not_mem_nil e)
    · intro hc
      exact absurd ⟨hc.2.2.1, hc.2.2.2.1⟩ h2
  · constructor
    · intro he
      exact absurd he (List.not_mem_nil e)
    · intro hc
      exact absurd ⟨hc.1, hc.2.1⟩ h1

/-- Field and message of every billing-range error. -/
theorem mem_billingRange_shape (d : List (Str × Str)) (headers : List Str)
    (e : ValidationError) (he : e ∈ billingRangeErrors d headers) :
    (e.field = str "BILLING_START_DATE" ∧
     e.error = str "Billing start date must be on or before billing end date") ∨
    (e.field = str "BILLING_END_DATE" ∧
     e.error = str "Billing end date must be on or after billing start date") := by
  unfold billingRangeErrors at he
  dsimp only at he
  split_ifs at he
  · rw [List.mem_cons, List.mem_singleton] at he
    rcases he with rfl | rfl
    · exact Or.inl ⟨rfl, rfl⟩
    · exact Or.inr ⟨rfl, rfl⟩
  · exact absurd he (List.not_mem_nil e)
  · exact absurd he (List.not_mem_nil e)
  · exact absurd he (List.not_mem_nil e)

/-- Type-conditional block of a row that is neither `F` nor `E`: empty. -/
theorem typeRequired_other_form (d : List (Str × Str)) (headers : List Str)
    (hF : ¬ toUpperJS (dictGet d (str "LINE_ITEM_TYPE")) = str "F")
    (hE : ¬ toUpperJS (dictGet d (str "LINE_ITEM_TYPE")) = str "E") :
    typeRequiredErrors d headers = [] := by
  unfold typeRequiredErrors
  dsimp only
  by_cases ht : dictGet d (str "LINE_ITEM_TYPE") ≠ []
  · rw [if_pos ht, if_neg hF, if_neg hE]
    rfl
  · rw [if_neg ht]

/-- Field and message of every type-conditional required-field error. -/
theorem mem_typeRequired_shape (d : List (Str × Str)) (headers : List Str)
    (e : ValidationError) (he : e ∈ typeRequiredErrors d headers) :
    e.error ∈ [str "Task code is required for fee line items (F)",
      str "Timekeeper ID is required for fee line items (F)",
      str "Description is required for fee line items (F)",
      str "Expense code is required for expense line items (E)"] ∧
    e.field ∈ [str "LINE_ITEM_TASK_CODE", str "TIMEKEEPER_ID",
      str "LINE_ITEM_DESCRIPTION", str "LINE_ITEM_EXPENSE_CODE"] := by
  by_cases hF : toUpperJS (dictGet d (str "LINE_ITEM_TYPE")) = str "F"
  · rw [typeRequired_F_form d headers hF] at he
    simp only [List.mem_append] at he
    rcases he with (h | h) | h <;> split_ifs at h <;>
      first
      | exact absurd h (List.not_mem_nil e)
      | (rw [List.mem_singleton] at h
         subst h
         constructor
         · first
           | exact List.mem_cons_self _ _
           | exact List.mem_cons_of_mem _ (List.mem_cons_self _ _)
           | exact List.mem_cons_of_mem _ (List.mem_cons_of_mem _ (List.mem_cons_self _ _))
           | exact List.mem_cons_of_mem _ (List.mem_cons_of_mem _
               (List.mem_cons_of_mem _ (List.mem_cons_self _ _)))
         · first
           | exact List.mem_cons_self _ _
           | exact List.mem_cons_of_mem _ (List.mem_cons_self _ _)
           | exact List.mem_cons_of_mem _ (List.mem_cons_of_mem _ (List.mem_cons_self _ _))
           | exact List.mem_cons_of_mem _ (List.mem_cons_of_mem _
               (List.mem_cons_of_mem _ (List.mem_cons_self _ _))))
  · by_cases hE : toUpperJS (dictGet d (str "LINE_ITEM_TYPE")) = str "E"
    · rw [typeRequired_E_form d headers hE] at he
      split_ifs at he
      · rw [List.mem_singleton] at he
        subst he
        exact ⟨List.mem_cons_of_mem _ (List.mem_cons_of_mem _
            (List.mem_cons_of_mem _ (List.mem_cons_self _ _))),
          List.mem_cons_of_mem _ (List.mem_cons_of_mem _
            (List.mem_cons_of_mem _ (List.mem_cons_self _ _)))⟩
      · exact absurd he (List.not_mem_nil e)
    · rw [typeRequired_other_form d headers hF hE] at he
      exact absurd he (List.not_mem_nil e)

theorem calcErrorMessage_head (u c a t cal tot : ℚ) :
    (calcErrorMessage u c a t cal tot).head? = some 'L' := rfl

/-- Message and field of every line-total reconciliation error. -/
theorem mem_lineTotalCalc_shape (d : List (Str × Str)) (headers : List Str)
    (e : ValidationError) (he : e ∈ lineTotalCalcErrors d headers) :
    (∃ u c a t cal tot, e.error = calcErrorMessage u c a t cal tot) ∧
    e.field ∈ [str "LINE_ITEM_NUMBER_OF_UNITS", str "LINE_ITEM_UNIT_COST",
      str "LINE_ITEM_ADJUSTMENT_AMOUNT", str "LINE_ITEM_TAX_TOTAL",
      str "LINE_ITEM_TOTAL"] := by
  unfold lineTotalCalcErrors at he
  dsimp only at he
  split_ifs at he <;>
    first
    | exact absurd he (List.not_mem_nil e)
    | (simp only [List.mem_append, List.mem_singleton, List.mem_cons,
        List.not_mem_nil, or_false] at he
       casesm* _ ∨ _ <;>
         first
         | contradiction
         | (subst_vars
            refine ⟨⟨_, _, _, _, _, _, rfl⟩, ?_⟩
            first
            | exact List.mem_cons_self _ _
            | exact List.mem_cons_of_mem _ (List.mem_cons_self _ _)
            | exact List.mem_cons_of_mem _ (List.mem_cons_of_mem _ (List.mem_cons_self _ _))
            | exact List.mem_cons_of_mem _ (List.mem_cons_of_mem _
                (List.mem_cons_of_mem _ (List.mem_cons_self _ _)))
            | exact List.mem_cons_of_mem _ (List.mem_cons_of_mem _ (List.mem_cons_of_mem _
                (List.mem_cons_of_mem _ (List.mem_cons_self _ _))))))

/-- Memberships in the cross-field result split over the five blocks. -/
theorem mem_validateCrossFieldRow_iff (rowData headers : List Str)
    (e : ValidationError) :
    e ∈ validateCrossFieldRow rowData headers ↔
      e ∈ billingRangeErrors (mkRowDict headers rowData) headers ∨
      e ∈ unitsRuleErrors (mkRowDict headers rowData) headers ∨
      e ∈ unitCostRuleErrors (mkRowDict headers rowData) headers ∨
      e ∈ typeRequiredErrors (mkRowDict headers rowData) headers ∨
      e ∈ lineTotalCalcErrors (mkRowDict headers rowData) headers := by
  unfold validateCrossFieldRow
  dsimp only
  simp only [List.mem_append]
  tauto

/-- C5 (amended): on a row of type `F` or `E`, the non-adjustment quantity
rule emits its error exactly when the units value is **non-empty** and either
whitespace-only or parsing to exactly 0 (an empty value is skipped by the
block's truthiness guard, contrary to the original claim); the unit-cost rule
behaves the same with the value stripped of non-numeric characters before
parsing. -/
theorem c5_zero_units_and_cost_rules :
    ∀ (headers rowData : List Str),
      (toUpperJS (dictGet (mkRowDict headers rowData) (str "LINE_ITEM_TYPE")) = str "F" ∨
       toUpperJS (dictGet (mkRowDict headers rowData) (str "LINE_ITEM_TYPE")) = str "E") →
      ((∃ e ∈ validateCrossFieldRow rowData headers,
          e.error = str "Units cannot be 0 or null for non-adjustment line items (F, E)") ↔
        dictGet (mkRowDict headers rowData) (str "LINE_ITEM_NUMBER_OF_UNITS") ≠ [] ∧
        (trim (dictGet (mkRowDict headers rowData) (str "LINE_ITEM_NUMBER_OF_UNITS")) = [] ∨
         parseFloat (dictGet (mkRowDict headers rowData)
            (str "LINE_ITEM_NUMBER_OF_UNITS")) = some 0)) ∧
      ((∃ e ∈ validateCrossFieldRow rowData headers,
          e.error = str "Unit cost cannot be 0 or null for non-adjustment line items (F, E)") ↔
        dictGet (mkRowDict headers rowData) (str "LINE_ITEM_UNIT_COST") ≠ [] ∧
        (trim (dictGet (mkRowDict headers rowData) (str "LINE_ITEM_UNIT_COST")) = [] ∨
         parseFloat (stripNum (dictGet (mkRowDict headers rowData)
            (str "LINE_ITEM_UNIT_COST"))) = some 0)) := by
  intro headers rowData htype
  have ht : dictGet (mkRowDict headers rowData) (str "LINE_ITEM_TYPE") ≠ [] := by
    rcases htype with h | h <;>
      (intro h0; rw [h0] at h; exact absurd h (by decide))
  have hadj : ¬ ([str "IF", str "IE"].contains
      (toUpperJS (dictGet (mkRowDict headers rowData) (str "LINE_ITEM_TYPE"))) = true) := by
    rcases htype with h | h <;> (rw [h]; decide)
  constructor
  · constructor
    · rintro ⟨e, he, hmsg⟩
      rcases (mem_validateCrossFieldRow_iff rowData headers e).mp he with h | h | h | h | h
      · rcases mem_billingRange_shape _ _ _ h with ⟨-, hm⟩ | ⟨-, hm⟩ <;>
          (rw [hm] at hmsg; exact absurd hmsg (by decide))
      · obtain ⟨-, hu, -, hdisj, rfl⟩ := (mem_unitsRule_iff _ _ _).mp h
        exact ⟨hu, hdisj.resolve_left hu⟩
      · obtain ⟨-, -, -, -, rfl⟩ := (mem_unitCostRule_iff _ _ _).mp h
        dsimp only at hmsg
        exact absurd hmsg (by decide)
      · obtain ⟨herr, -⟩ := mem_typeRequired_shape _ _ _ h
        rw [hmsg] at herr
        exact absurd herr (by decide)
      · obtain ⟨⟨u, c, a, t, cal, tot, herr⟩, -⟩ := mem_lineTotalCalc_shape _ _ _ h
        rw [hmsg] at herr
        have hh := congrArg List.head? herr
        rw [calcErrorMessage_head] at hh
        exact absurd hh (by decide)
    · rintro ⟨hu, hdisj⟩
      refine ⟨⟨str "LINE_ITEM_NUMBER_OF_UNITS",
          jsIndexOf headers (str "LINE_ITEM_NUMBER_OF_UNITS") + 1,
          dictGet (mkRowDict headers rowData) (str "LINE_ITEM_NUMBER_OF_UNITS"),
          str "Units cannot be 0 or null for non-adjustment line items (F, E)", none⟩,
        (mem_validateCrossFieldRow_iff rowData headers _).mpr (Or.inr (Or.inl ?_)), rfl⟩
      exact (mem_unitsRule_iff _ _ _).mpr ⟨ht, hu, hadj, Or.inr hdisj, rfl⟩
  · constructor
    · rintro ⟨e, he, hmsg⟩
      rcases (mem_validateCrossFieldRow_iff rowData headers e).mp he with h | h | h | h | h
      · rcases mem_billingRange_shape _ _ _ h with ⟨-, hm⟩ | ⟨-, hm⟩ <;>
          (rw [hm] at hmsg; exact absurd hmsg (by decide))
      · obtain ⟨-, -, -, -, rfl⟩ := (mem_unitsRule_iff _ _ _).mp h
        dsimp only at hmsg
        exact absurd hmsg (by decide)
      · obtain ⟨-, hc, -, hdisj, rfl⟩ := (mem_unitCostRule_iff _ _ _).mp h
        exact ⟨hc, hdisj.resolve_left hc⟩
      · obtain ⟨herr, -⟩ := mem_typeRequired_shape _ _ _ h
        rw [hmsg] at herr
        exact absurd herr (by decide)
      · obtain ⟨⟨u, c, a, t, cal, tot, herr⟩, -⟩ := mem_lineTotalCalc_shape _ _ _ h
        rw [hmsg] at herr
        have hh := congrArg List.head? herr
        rw [calcErrorMessage_head] at hh
        exact absurd hh (by decide)
    · rintro ⟨hc, hdisj⟩
      refine ⟨⟨str "LINE_ITEM_UNIT_COST",
          jsIndexOf headers (str "LINE_ITEM_UNIT_COST") + 1,
          dictGet (mkRowDict headers rowData) (str "LINE_ITEM_UNIT_COST"),
          str "Unit cost cannot be 0 or null for non-adjustment line items (F, E)", none⟩,
        (mem_validateCrossFieldRow_iff rowData headers _).mpr
          (Or.inr (Or.inr (Or.inl ?_))), rfl⟩
      exact (mem_unitCostRule_iff _ _ _).mpr ⟨ht, hc, hadj, Or.inr hdisj, rfl⟩

/-- C5 witness: an `F` row whose units value parses to 0, evaluated through
the theorem. -/
theorem c5_zero_units_and_cost_rules_witness :
    ∃ e ∈ validateCrossFieldRow [str "F", str "0"]
        [str "LINE_ITEM_TYPE", str "LINE_ITEM_NUMBER_OF_UNITS"],
      e.error = str "Units cannot be 0 or null for non-adjustment line items (F, E)" :=
  ((c5_zero_units_and_cost_rules
      [str "LINE_ITEM_TYPE", str "LINE_ITEM_NUMBER_OF_UNITS"]
      [str "F", str "0"] (Or.inl (by decide))).1).mpr ⟨by decide, Or.inr (by decide)⟩

/-- C5 counterexample: an `F` row with an **empty** units value receives no
error at all on `LINE_ITEM_NUMBER_OF_UNITS` — the block's guard skips empty
values — refuting the original claim that emptiness triggers the error. -/
theorem c5_counterexample :
    (validateCrossFieldRow [str "F", str ""]
        [str "LINE_ITEM_TYPE", str "LINE_ITEM_NUMBER_OF_UNITS"]).filter
      (fun e => decide (e.field = str "LINE_ITEM_NUMBER_OF_UNITS")) = [] := by decide

/-- Explicit shape of the reconciliation block when units, unit cost and line
total are all non-empty. -/
theorem lineTotalCalc_form (d : List (Str × Str)) (headers : List Str)
    (hu : dictGet d (str "LINE_ITEM_NUMBER_OF_UNITS") ≠ [])
    (hc : dictGet d (str "LINE_ITEM_UNIT_COST") ≠ [])
    (htot : dictGet d (str "LINE_ITEM_TOTAL") ≠ []) :
    lineTotalCalcErrors d headers =
      if mkRat 1 100 < qabs (qsub
          (qadd (qadd (qmul ((parseFloat (dictGet d (str "LINE_ITEM_NUMBER_OF_UNITS"))).getD 0)
              ((parseFloat (stripNum (dictGet d (str "LINE_ITEM_UNIT_COST")))).getD 0))
            ((parseFloat (stripNum (dictGet d (str "LINE_ITEM_ADJUSTMENT_AMOUNT")))).getD 0))
            ((parseFloat (stripNum (dictGet d (str "LINE_ITEM_TAX_TOTAL")))).getD 0))
          ((parseFloat (stripNum (dictGet d (str "LINE_ITEM_TOTAL")))).getD 0)) then
        [⟨str "LINE_ITEM_NUMBER_OF_UNITS",
          jsIndexOf headers (str "LINE_ITEM_NUMBER_OF_UNITS") + 1,
          dictGet d (str "LINE_ITEM_NUMBER_OF_UNITS"),
          calcErrorMessage ((parseFloat (dictGet d (str "LINE_ITEM_NUMBER_OF_UNITS"))).getD 0)
            ((parseFloat (stripNum (dictGet d (str "LINE_ITEM_UNIT_COST")))).getD 0)
            ((parseFloat (stripNum (dictGet d (str "LINE_ITEM_ADJUSTMENT_AMOUNT")))).getD 0)
            ((parseFloat (stripNum (dictGet d (str "LINE_ITEM_TAX_TOTAL")))).getD 0)
            (qadd (qadd (qmul ((parseFloat (dictGet d (str "LINE_ITEM_NUMBER_OF_UNITS"))).getD 0)
                ((parseFloat (stripNum (dictGet d (str "LINE_ITEM_UNIT_COST")))).getD 0))
              ((parseFloat (stripNum (dictGet d (str "LINE_ITEM_ADJUSTMENT_AMOUNT")))).getD 0))
              ((parseFloat (stripNum (dictGet d (str "LINE_ITEM_TAX_TOTAL")))).getD 0))
            ((parseFloat (stripNum (dictGet d (str "LINE_ITEM_TOTAL")))).getD 0), none⟩,
         ⟨str "LINE_ITEM_UNIT_COST",
          jsIndexOf headers (str "LINE_ITEM_UNIT_COST") + 1,
          dictGet d (str "LINE_ITEM_UNIT_COST"),
          calcErrorMessage ((parseFloat (dictGet d (str "LINE_ITEM_NUMBER_OF_UNITS"))).getD 0)
            ((parseFloat (stripNum (dictGet d (str "LINE_ITEM_UNIT_COST")))).getD 0)
            ((parseFloat (stripNum (dictGet d (str "LINE_ITEM_ADJUSTMENT_AMOUNT")))).getD 0)
            ((parseFloat (stripNum (dictGet d (str "LINE_ITEM_TAX_TOTAL")))).getD 0)
            (qadd (qadd (qmul ((parseFloat (dictGet d (str "LINE_ITEM_NUMBER_OF_UNITS"))).getD 0)
                ((parseFloat (stripNum (dictGet d (str "LINE_ITEM_UNIT_COST")))).getD 0))
              ((parseFloat (stripNum (dictGet d (str "LINE_ITEM_ADJUSTMENT_AMOUNT")))).getD 0))
              ((parseFloat (stripNum (dictGet d (str "LINE_ITEM_TAX_TOTAL")))).getD 0))
            ((parseFloat (stripNum (dictGet d (str "LINE_ITEM_TOTAL")))).getD 0), none⟩] ++
        (if dictGet d (str "LINE_ITEM_ADJUSTMENT_AMOUNT") ≠ [] then
          [⟨str "LINE_ITEM_ADJUSTMENT_AMOUNT",
            jsIndexOf headers (str "LINE_ITEM_ADJUSTMENT_AMOUNT") + 1,
            dictGet d (str "LINE_ITEM_ADJUSTMENT_AMOUNT"),
            calcErrorMessage ((parseFloat (dictGet d (str "LINE_ITEM_NUMBER_OF_UNITS"))).getD 0)
              ((parseFloat (stripNum (dictGet d (str "LINE_ITEM_UNIT_COST")))).getD 0)
              ((parseFloat (stripNum (dictGet d (str "LINE_ITEM_ADJUSTMENT_AMOUNT")))).getD 0)
              ((parseFloat (stripNum (dictGet d (str "LINE_ITEM_TAX_TOTAL")))).getD 0)
              (qadd (qadd (qmul ((parseFloat (dictGet d (str "LINE_ITEM_NUMBER_OF_UNITS"))).getD 0)
                  ((parseFloat (stripNum (dictGet d (str "LINE_ITEM_UNIT_COST")))).getD 0))
                ((parseFloat (stripNum (dictGet d (str "LINE_ITEM_ADJUSTMENT_AMOUNT")))).getD 0))
                ((parseFloat (stripNum (dictGet d (str "LINE_ITEM_TAX_TOTAL")))).getD 0))
              ((parseFloat (stripNum (dictGet d (str "LINE_ITEM_TOTAL")))).getD 0), none⟩]
        else []) ++
        (if dictGet d (str "LINE_ITEM_TAX_TOTAL") ≠ [] then
          [⟨str "LINE_ITEM_TAX_TOTAL",
            jsIndexOf headers (str "LINE_ITEM_TAX_TOTAL") + 1,
            dictGet d (str "LINE_ITEM_TAX_TOTAL"),
            calcErrorMessage ((parseFloat (dictGet d (str "LINE_ITEM_NUMBER_OF_UNITS"))).getD 0)
              ((parseFloat (stripNum (dictGet d (str "LINE_ITEM_UNIT_COST")))).getD 0)
              ((parseFloat (stripNum (dictGet d (str "LINE_ITEM_ADJUSTMENT_AMOUNT")))).getD 0)
              ((parseFloat (stripNum (dictGet d (str "LINE_ITEM_TAX_TOTAL")))).getD 0)
              (qadd (qadd (qmul ((parseFloat (dictGet d (str "LINE_ITEM_NUMBER_OF_UNITS"))).getD 0)
                  ((parseFloat (stripNum (dictGet d (str "LINE_ITEM_UNIT_COST")))).getD 0))
                ((parseFloat (stripNum (dictGet d (str "LINE_ITEM_ADJUSTMENT_AMOUNT")))).getD 0))
                ((parseFloat (stripNum (dictGet d (str "LINE_ITEM_TAX_TOTAL")))).getD 0))
              ((parseFloat (stripNum (dictGet d (str "LINE_ITEM_TOTAL")))).getD 0), none⟩]
        else []) ++
        [⟨str "LINE_ITEM_TOTAL",
          jsIndexOf headers (str "LINE_ITEM_TOTAL") + 1,
          dictGet d (str "LINE_ITEM_TOTAL"),
          calcErrorMessage ((parseFloat (dictGet d (str "LINE_ITEM_NUMBER_OF_UNITS"))).getD 0)
            ((parseFloat (stripNum (dictGet d (str "LINE_ITEM_UNIT_COST")))).getD 0)
            ((parseFloat (stripNum (dictGet d (str "LINE_ITEM_ADJUSTMENT_AMOUNT")))).getD 0)
            ((parseFloat (stripNum (dictGet d (str "LINE_ITEM_TAX_TOTAL")))).getD 0)
            (qadd (qadd (qmul ((parseFloat (dictGet d (str "LINE_ITEM_NUMBER_OF_UNITS"))).getD 0)
                ((parseFloat (stripNum (dictGet d (str "LINE_ITEM_UNIT_COST")))).getD 0))
              ((parseFloat (stripNum (dictGet d (str "LINE_ITEM_ADJUSTMENT_AMOUNT")))).getD 0))
              ((parseFloat (stripNum (dictGet d (str "LINE_ITEM_TAX_TOTAL")))).getD 0))
            ((parseFloat (stripNum (dictGet d (str "LINE_ITEM_TOTAL")))).getD 0), none⟩]
      else [] := by
  unfold lineTotalCalcErrors
  dsimp only
  rw [if_pos ⟨hu, hc, htot⟩]

/-- C6: with units, unit cost and line total all non-empty, the
reconciliation rule fires exactly when the expected total
`units × unit_cost + adjustment + tax` differs from the stored total by more
than `0.01` (all but units stripped of non-numeric characters, unparsable
values coerced to 0); when it fires, the identical message is attached to
units, unit cost and total, and to adjustment and tax exactly when each is
non-empty.  Concretely, units=2, cost=100, adjustment=0, tax=0, total=200
yields no error, while total=199 yields the five errors whose shared message
states the expected value `200.00`. -/
theorem c6_line_total_reconciliation :
    (∀ (headers rowData : List Str),
      dictGet (mkRowDict headers rowData) (str "LINE_ITEM_NUMBER_OF_UNITS") ≠ [] →
      dictGet (mkRowDict headers rowData) (str "LINE_ITEM_UNIT_COST") ≠ [] →
      dictGet (mkRowDict headers rowData) (str "LINE_ITEM_TOTAL") ≠ [] →
      (((∃ e ∈ validateCrossFieldRow rowData headers, e.field = str "LINE_ITEM_TOTAL") ↔
        1 / 100 < |((parseFloat (dictGet (mkRowDict headers rowData) (str "LINE_ITEM_NUMBER_OF_UNITS"))).getD 0) * ((parseFloat (stripNum (dictGet (mkRowDict headers rowData) (str "LINE_ITEM_UNIT_COST")))).getD 0) + ((parseFloat (stripNum (dictGet (mkRowDict headers rowData) (str "LINE_ITEM_ADJUSTMENT_AMOUNT")))).getD 0) + ((parseFloat (stripNum (dictGet (mkRowDict headers rowData) (str "LINE_ITEM_TAX_TOTAL")))).getD 0) - ((parseFloat (stripNum (dictGet (mkRowDict headers rowData) (str "LINE_ITEM_TOTAL")))).getD 0)|) ∧
       (1 / 100 < |((parseFloat (dictGet (mkRowDict headers rowData) (str "LINE_ITEM_NUMBER_OF_UNITS"))).getD 0) * ((parseFloat (stripNum (dictGet (mkRowDict headers rowData) (str "LINE_ITEM_UNIT_COST")))).getD 0) + ((parseFloat (stripNum (dictGet (mkRowDict headers rowData) (str "LINE_ITEM_ADJUSTMENT_AMOUNT")))).getD 0) + ((parseFloat (stripNum (dictGet (mkRowDict headers rowData) (str "LINE_ITEM_TAX_TOTAL")))).getD 0) - ((parseFloat (stripNum (dictGet (mkRowDict headers rowData) (str "LINE_ITEM_TOTAL")))).getD 0)| →
        (∃ e ∈ validateCrossFieldRow rowData headers,
          e.field = str "LINE_ITEM_NUMBER_OF_UNITS" ∧ e.error = calcErrorMessage ((parseFloat (dictGet (mkRowDict headers rowData) (str "LINE_ITEM_NUMBER_OF_UNITS"))).getD 0) ((parseFloat (stripNum (dictGet (mkRowDict headers rowData) (str "LINE_ITEM_UNIT_COST")))).getD 0) ((parseFloat (stripNum (dictGet (mkRowDict headers rowData) (str "LINE_ITEM_ADJUSTMENT_AMOUNT")))).getD 0) ((parseFloat (stripNum (dictGet (mkRowDict headers rowData) (str "LINE_ITEM_TAX_TOTAL")))).getD 0) (((parseFloat (dictGet (mkRowDict headers rowData) (str "LINE_ITEM_NUMBER_OF_UNITS"))).getD 0) * ((parseFloat (stripNum (dictGet (mkRowDict headers rowData) (str "LINE_ITEM_UNIT_COST")))).getD 0) + ((parseFloat (stripNum (dictGet (mkRowDict headers rowData) (str "LINE_ITEM_ADJUSTMENT_AMOUNT")))).getD 0) + ((parseFloat (stripNum (dictGet (mkRowDict headers rowData) (str "LINE_ITEM_TAX_TOTAL")))).getD 0)) ((parseFloat (stripNum (dictGet (mkRowDict headers rowData) (str "LINE_ITEM_TOTAL")))).getD 0)) ∧
        (∃ e ∈ validateCrossFieldRow rowData headers,
          e.field = str "LINE_ITEM_UNIT_COST" ∧ e.error = calcErrorMessage ((parseFloat (dictGet (mkRowDict headers rowData) (str "LINE_ITEM_NUMBER_OF_UNITS"))).getD 0) ((parseFloat (stripNum (dictGet (mkRowDict headers rowData) (str "LINE_ITEM_UNIT_COST")))).getD 0) ((parseFloat (stripNum (dictGet (mkRowDict headers rowData) (str "LINE_ITEM_ADJUSTMENT_AMOUNT")))).getD 0) ((parseFloat (stripNum (dictGet (mkRowDict headers rowData) (str "LINE_ITEM_TAX_TOTAL")))).getD 0) (((parseFloat (dictGet (mkRowDict headers rowData) (str "LINE_ITEM_NUMBER_OF_UNITS"))).getD 0) * ((parseFloat (stripNum (dictGet (mkRowDict headers rowData) (str "LINE_ITEM_UNIT_COST")))).getD 0) + ((parseFloat (stripNum (dictGet (mkRowDict headers rowData) (str "LINE_ITEM_ADJUSTMENT_AMOUNT")))).getD 0) + ((parseFloat (stripNum (dictGet (mkRowDict headers rowData) (str "LINE_ITEM_TAX_TOTAL")))).getD 0)) ((parseFloat (stripNum (dictGet (mkRowDict headers rowData) (str "LINE_ITEM_TOTAL")))).getD 0)) ∧
        (∃ e ∈ validateCrossFieldRow rowData headers,
          e.field = str "LINE_ITEM_TOTAL" ∧ e.error = calcErrorMessage ((parseFloat (dictGet (mkRowDict headers rowData) (str "LINE_ITEM_NUMBER_OF_UNITS"))).getD 0) ((parseFloat (stripNum (dictGet (mkRowDict headers rowData) (str "LINE_ITEM_UNIT_COST")))).getD 0) ((parseFloat (stripNum (dictGet (mkRowDict headers rowData) (str "LINE_ITEM_ADJUSTMENT_AMOUNT")))).getD 0) ((parseFloat (stripNum (dictGet (mkRowDict headers rowData) (str "LINE_ITEM_TAX_TOTAL")))).getD 0) (((parseFloat (dictGet (mkRowDict headers rowData) (str "LINE_ITEM_NUMBER_OF_UNITS"))).getD 0) * ((parseFloat (stripNum (dictGet (mkRowDict headers rowData) (str "LINE_ITEM_UNIT_COST")))).getD 0) + ((parseFloat (stripNum (dictGet (mkRowDict headers rowData) (str "LINE_ITEM_ADJUSTMENT_AMOUNT")))).getD 0) + ((parseFloat (stripNum (dictGet (mkRowDict headers rowData) (str "LINE_ITEM_TAX_TOTAL")))).getD 0)) ((parseFloat (stripNum (dictGet (mkRowDict headers rowData) (str "LINE_ITEM_TOTAL")))).getD 0)) ∧
        ((∃ e ∈ validateCrossFieldRow rowData headers,
          e.field = str "LINE_ITEM_ADJUSTMENT_AMOUNT" ∧ e.error = calcErrorMessage ((parseFloat (dictGet (mkRowDict headers rowData) (str "LINE_ITEM_NUMBER_OF_UNITS"))).getD 0) ((parseFloat (stripNum (dictGet (mkRowDict headers rowData) (str "LINE_ITEM_UNIT_COST")))).getD 0) ((parseFloat (stripNum (dictGet (mkRowDict headers rowData) (str "LINE_ITEM_ADJUSTMENT_AMOUNT")))).getD 0) ((parseFloat (stripNum (dictGet (mkRowDict headers rowData) (str "LINE_ITEM_TAX_TOTAL")))).getD 0) (((parseFloat (dictGet (mkRowDict headers rowData) (str "LINE_ITEM_NUMBER_OF_UNITS"))).getD 0) * ((parseFloat (stripNum (dictGet (mkRowDict headers rowData) (str "LINE_ITEM_UNIT_COST")))).getD 0) + ((parseFloat (stripNum (dictGet (mkRowDict headers rowData) (str "LINE_ITEM_ADJUSTMENT_AMOUNT")))).getD 0) + ((parseFloat (stripNum (dictGet (mkRowDict headers rowData) (str "LINE_ITEM_TAX_TOTAL")))).getD 0)) ((parseFloat (stripNum (dictGet (mkRowDict headers rowData) (str "LINE_ITEM_TOTAL")))).getD 0)) ↔
          dictGet (mkRowDict headers rowData) (str "LINE_ITEM_ADJUSTMENT_AMOUNT") ≠ []) ∧
        ((∃ e ∈ validateCrossFieldRow rowData headers,
          e.field = str "LINE_ITEM_TAX_TOTAL" ∧ e.error = calcErrorMessage ((parseFloat (dictGet (mkRowDict headers rowData) (str "LINE_ITEM_NUMBER_OF_UNITS"))).getD 0) ((parseFloat (stripNum (dictGet (mkRowDict headers rowData) (str "LINE_ITEM_UNIT_COST")))).getD 0) ((parseFloat (stripNum (dictGet (mkRowDict headers rowData) (str "LINE_ITEM_ADJUSTMENT_AMOUNT")))).getD 0) ((parseFloat (stripNum (dictGet (mkRowDict headers rowData) (str "LINE_ITEM_TAX_TOTAL")))).getD 0) (((parseFloat (dictGet (mkRowDict headers rowData) (str "LINE_ITEM_NUMBER_OF_UNITS"))).getD 0) * ((parseFloat (stripNum (dictGet (mkRowDict headers rowData) (str "LINE_ITEM_UNIT_COST")))).getD 0) + ((parseFloat (stripNum (dictGet (mkRowDict headers rowData) (str "LINE_ITEM_ADJUSTMENT_AMOUNT")))).getD 0) + ((parseFloat (stripNum (dictGet (mkRowDict headers rowData) (str "LINE_ITEM_TAX_TOTAL")))).getD 0)) ((parseFloat (stripNum (dictGet (mkRowDict headers rowData) (str "LINE_ITEM_TOTAL")))).getD 0)) ↔
          dictGet (mkRowDict headers rowData) (str "LINE_ITEM_TAX_TOTAL") ≠ [])))) ∧
    validateCrossFieldRow [str "2", str "100", str "0", str "0", str "200"]
      [str "LINE_ITEM_NUMBER_OF_UNITS", str "LINE_ITEM_UNIT_COST",
       str "LINE_ITEM_ADJUSTMENT_AMOUNT", str "LINE_ITEM_TAX_TOTAL",
       str "LINE_ITEM_TOTAL"] = [] ∧
    (validateCrossFieldRow [str "2", str "100", str "0", str "0", str "199"]
      [str "LINE_ITEM_NUMBER_OF_UNITS", str "LINE_ITEM_UNIT_COST",
       str "LINE_ITEM_ADJUSTMENT_AMOUNT", str "LINE_ITEM_TAX_TOTAL",
       str "LINE_ITEM_TOTAL"]).map (fun e => (e.field, e.error)) =
      [(str "LINE_ITEM_NUMBER_OF_UNITS",
        str "Line item calculation error: 2 × 100 + 0 + 0 should equal 200.00, but total shows 199"),
       (str "LINE_ITEM_UNIT_COST",
        str "Line item calculation error: 2 × 100 + 0 + 0 should equal 200.00, but total shows 199"),
       (str "LINE_ITEM_ADJUSTMENT_AMOUNT",
        str "Line item calculation error: 2 × 100 + 0 + 0 should equal 200.00, but total shows 199"),
       (str "LINE_ITEM_TAX_TOTAL",
        str "Line item calculation error: 2 × 100 + 0 + 0 should equal 200.00, but total shows 199"),
       (str "LINE_ITEM_TOTAL",
        str "Line item calculation error: 2 × 100 + 0 + 0 should equal 200.00, but total shows 199")] := by
  refine ⟨?_, by decide, by decide⟩
  intro headers rowData hu hc htot
  have hform := lineTotalCalc_form (mkRowDict headers rowData) headers hu hc htot
  simp only [qmul_eq, qadd_eq, qsub_eq, qabs_eq, mkRat_one_hundred] at hform
  by_cases hcond : 1 / 100 < |((parseFloat (dictGet (mkRowDict headers rowData) (str "LINE_ITEM_NUMBER_OF_UNITS"))).getD 0) * ((parseFloat (stripNum (dictGet (mkRowDict headers rowData) (str "LINE_ITEM_UNIT_COST")))).getD 0) + ((parseFloat (stripNum (dictGet (mkRowDict headers rowData) (str "LINE_ITEM_ADJUSTMENT_AMOUNT")))).getD 0) + ((parseFloat (stripNum (dictGet (mkRowDict headers rowData) (str "LINE_ITEM_TAX_TOTAL")))).getD 0) - ((parseFloat (stripNum (dictGet (mkRowDict headers rowData) (str "LINE_ITEM_TOTAL")))).getD 0)|
  case neg =>
    rw [if_neg hcond] at hform
    constructor
    · constructor
      · rintro ⟨e, he, hfield⟩
        rcases (mem_validateCrossFieldRow_iff rowData headers e).mp he with h | h | h | h | h
        · rcases mem_billingRange_shape _ _ _ h with ⟨hf, -⟩ | ⟨hf, -⟩ <;>
            (rw [hfield] at hf; exact absurd hf (by decide))
        · obtain ⟨-, -, -, -, rfl⟩ := (mem_unitsRule_iff _ _ _).mp h
          dsimp only at hfield
          exact absurd hfield (by decide)
        · obtain ⟨-, -, -, -, rfl⟩ := (mem_unitCostRule_iff _ _ _).mp h
          dsimp only at hfield
          exact absurd hfield (by decide)
        · obtain ⟨-, hf⟩ := mem_typeRequired_shape _ _ _ h
          rw [hfield] at hf
          exact absurd hf (by decide)
        · rw [hform] at h
          exact absurd h (List.not_mem_nil e)
      · intro h
        exact absurd h hcond
    · intro h
      exact absurd h hcond
  case pos =>
    rw [if_pos hcond] at hform
    have hmem : ∀ e : ValidationError,
        e ∈ lineTotalCalcErrors (mkRowDict headers rowData) headers →
        e ∈ validateCrossFieldRow rowData headers := fun e h =>
      (mem_validateCrossFieldRow_iff rowData headers e).mpr
        (Or.inr (Or.inr (Or.inr (Or.inr h))))
    constructor
    · constructor
      · intro _
        exact hcond
      · intro _
        refine ⟨⟨str "LINE_ITEM_TOTAL", jsIndexOf headers (str "LINE_ITEM_TOTAL") + 1,
          dictGet (mkRowDict headers rowData) (str "LINE_ITEM_TOTAL"),
          calcErrorMessage ((parseFloat (dictGet (mkRowDict headers rowData) (str "LINE_ITEM_NUMBER_OF_UNITS"))).getD 0) ((parseFloat (stripNum (dictGet (mkRowDict headers rowData) (str "LINE_ITEM_UNIT_COST")))).getD 0) ((parseFloat (stripNum (dictGet (mkRowDict headers rowData) (str "LINE_ITEM_ADJUSTMENT_AMOUNT")))).getD 0) ((parseFloat (stripNum (dictGet (mkRowDict headers rowData) (str "LINE_ITEM_TAX_TOTAL")))).getD 0) (((parseFloat (dictGet (mkRowDict headers rowData) (str "LINE_ITEM_NUMBER_OF_UNITS"))).getD 0) * ((parseFloat (stripNum (dictGet (mkRowDict headers rowData) (str "LINE_ITEM_UNIT_COST")))).getD 0) + ((parseFloat (stripNum (dictGet (mkRowDict headers rowData) (str "LINE_ITEM_ADJUSTMENT_AMOUNT")))).getD 0) + ((parseFloat (stripNum (dictGet (mkRowDict headers rowData) (str "LINE_ITEM_TAX_TOTAL")))).getD 0)) ((parseFloat (stripNum (dictGet (mkRowDict headers rowData) (str "LINE_ITEM_TOTAL")))).getD 0), none⟩, hmem _ ?_, rfl⟩
        rw [hform]
        simp [List.mem_append]
    · intro _
      refine ⟨⟨⟨str "LINE_ITEM_NUMBER_OF_UNITS", jsIndexOf headers (str "LINE_ITEM_NUMBER_OF_UNITS") + 1,
          dictGet (mkRowDict headers rowData) (str "LINE_ITEM_NUMBER_OF_UNITS"),
          calcErrorMessage ((parseFloat (dictGet (mkRowDict headers rowData) (str "LINE_ITEM_NUMBER_OF_UNITS"))).getD 0) ((parseFloat (stripNum (dictGet (mkRowDict headers rowData) (str "LINE_ITEM_UNIT_COST")))).getD 0) ((parseFloat (stripNum (dictGet (mkRowDict headers rowData) (str "LINE_ITEM_ADJUSTMENT_AMOUNT")))).getD 0) ((parseFloat (stripNum (dictGet (mkRowDict headers rowData) (str "LINE_ITEM_TAX_TOTAL")))).getD 0) (((parseFloat (dictGet (mkRowDict headers rowData) (str "LINE_ITEM_NUMBER_OF_UNITS"))).getD 0) * ((parseFloat (stripNum (dictGet (mkRowDict headers rowData) (str "LINE_ITEM_UNIT_COST")))).getD 0) + ((parseFloat (stripNum (dictGet (mkRowDict headers rowData) (str "LINE_ITEM_ADJUSTMENT_AMOUNT")))).getD 0) + ((parseFloat (stripNum (dictGet (mkRowDict headers rowData) (str "LINE_ITEM_TAX_TOTAL")))).getD 0)) ((parseFloat (stripNum (dictGet (mkRowDict headers rowData) (str "LINE_ITEM_TOTAL")))).getD 0), none⟩, hmem _ ?_, rfl, rfl⟩,
        ⟨⟨str "LINE_ITEM_UNIT_COST", jsIndexOf headers (str "LINE_ITEM_UNIT_COST") + 1,
          dictGet (mkRowDict headers rowData) (str "LINE_ITEM_UNIT_COST"),
          calcErrorMessage ((parseFloat (dictGet (mkRowDict headers rowData) (str "LINE_ITEM_NUMBER_OF_UNITS"))).getD 0) ((parseFloat (stripNum (dictGet (mkRowDict headers rowData) (str "LINE_ITEM_UNIT_COST")))).getD 0) ((parseFloat (stripNum (dictGet (mkRowDict headers rowData) (str "LINE_ITEM_ADJUSTMENT_AMOUNT")))).getD 0) ((parseFloat (stripNum (dictGet (mkRowDict headers rowData) (str "LINE_ITEM_TAX_TOTAL")))).getD 0) (((parseFloat (dictGet (mkRowDict headers rowData) (str "LINE_ITEM_NUMBER_OF_UNITS"))).getD 0) * ((parseFloat (stripNum (dictGet (mkRowDict headers rowData) (str "LINE_ITEM_UNIT_COST")))).getD 0) + ((parseFloat (stripNum (dictGet (mkRowDict headers rowData) (str "LINE_ITEM_ADJUSTMENT_AMOUNT")))).getD 0) + ((parseFloat (stripNum (dictGet (mkRowDict headers rowData) (str "LINE_ITEM_TAX_TOTAL")))).getD 0)) ((parseFloat (stripNum (dictGet (mkRowDict headers rowData) (str "LINE_ITEM_TOTAL")))).getD 0), none⟩, hmem _ ?_, rfl, rfl⟩,
        ⟨⟨str "LINE_ITEM_TOTAL", jsIndexOf headers (str "LINE_ITEM_TOTAL") + 1,
          dictGet (mkRowDict headers rowData) (str "LINE_ITEM_TOTAL"),
          calcErrorMessage ((parseFloat (dictGet (mkRowDict headers rowData) (str "LINE_ITEM_NUMBER_OF_UNITS"))).getD 0) ((parseFloat (stripNum (dictGet (mkRowDict headers rowData) (str "LINE_ITEM_UNIT_COST")))).getD 0) ((parseFloat (stripNum (dictGet (mkRowDict headers rowData) (str "LINE_ITEM_ADJUSTMENT_AMOUNT")))).getD 0) ((parseFloat (stripNum (dictGet (mkRowDict headers rowData) (str "LINE_ITEM_TAX_TOTAL")))).getD 0) (((parseFloat (dictGet (mkRowDict headers rowData) (str "LINE_ITEM_NUMBER_OF_UNITS"))).getD 0) * ((parseFloat (stripNum (dictGet (mkRowDict headers rowData) (str "LINE_ITEM_UNIT_COST")))).getD 0) + ((parseFloat (stripNum (dictGet (mkRowDict headers rowData) (str "LINE_ITEM_ADJUSTMENT_AMOUNT")))).getD 0) + ((parseFloat (stripNum (dictGet (mkRowDict headers rowData) (str "LINE_ITEM_TAX_TOTAL")))).getD 0)) ((parseFloat (stripNum (dictGet (mkRowDict headers rowData) (str "LINE_ITEM_TOTAL")))).getD 0), none⟩, hmem _ ?_, rfl, rfl⟩,
        ⟨?_, ?_⟩, ⟨?_, ?_⟩⟩
      · rw [hform]
        simp [List.mem_append]
      · rw [hform]
        simp [List.mem_append]
      · rw [hform]
        simp [List.mem_append]
      · rintro ⟨e, he, hfield, -⟩
        by_contra hadj
        rcases (mem_validateCrossFieldRow_iff rowData headers e).mp he with h | h | h | h | h
        · rcases mem_billingRange_shape _ _ _ h with ⟨hf, -⟩ | ⟨hf, -⟩ <;>
            (rw [hfield] at hf; exact absurd hf (by decide))
        · obtain ⟨-, -, -, -, rfl⟩ := (mem_unitsRule_iff _ _ _).mp h
          dsimp only at hfield
          exact absurd hfield (by decide)
        · obtain ⟨-, -, -, -, rfl⟩ := (mem_unitCostRule_iff _ _ _).mp h
          dsimp only at hfield
          exact absurd hfield (by decide)
        · obtain ⟨-, hf⟩ := mem_typeRequired_shape _ _ _ h
          rw [hfield] at hf
          exact absurd hf (by decide)
        · rw [hform] at h
          rw [if_neg (show ¬ dictGet (mkRowDict headers rowData)
              (str "LINE_ITEM_ADJUSTMENT_AMOUNT") ≠ [] from fun hh => hh hadj)] at h
          split_ifs at h <;>
            (simp only [List.mem_append, List.mem_singleton, List.mem_cons,
              List.not_mem_nil, or_false, List.append_nil, List.nil_append] at h
             casesm* _ ∨ _ <;> subst_vars <;>
               (dsimp only at hfield; exact absurd hfield (by decide)))
      · intro hadj
        refine ⟨⟨str "LINE_ITEM_ADJUSTMENT_AMOUNT", jsIndexOf headers (str "LINE_ITEM_ADJUSTMENT_AMOUNT") + 1,
          dictGet (mkRowDict headers rowData) (str "LINE_ITEM_ADJUSTMENT_AMOUNT"),
          calcErrorMessage ((parseFloat (dictGet (mkRowDict headers rowData) (str "LINE_ITEM_NUMBER_OF_UNITS"))).getD 0) ((parseFloat (stripNum (dictGet (mkRowDict headers rowData) (str "LINE_ITEM_UNIT_COST")))).getD 0) ((parseFloat (stripNum (dictGet (mkRowDict headers rowData) (str "LINE_ITEM_ADJUSTMENT_AMOUNT")))).getD 0) ((parseFloat (stripNum (dictGet (mkRowDict headers rowData) (str "LINE_ITEM_TAX_TOTAL")))).getD 0) (((parseFloat (dictGet (mkRowDict headers rowData) (str "LINE_ITEM_NUMBER_OF_UNITS"))).getD 0) * ((parseFloat (stripNum (dictGet (mkRowDict headers rowData) (str "LINE_ITEM_UNIT_COST")))).getD 0) + ((parseFloat (stripNum (dictGet (mkRowDict headers rowData) (str "LINE_ITEM_ADJUSTMENT_AMOUNT")))).getD 0) + ((parseFloat (stripNum (dictGet (mkRowDict headers rowData) (str "LINE_ITEM_TAX_TOTAL")))).getD 0)) ((parseFloat (stripNum (dictGet (mkRowDict headers rowData) (str "LINE_ITEM_TOTAL")))).getD 0), none⟩, hmem _ ?_, rfl, rfl⟩
        rw [hform, if_pos hadj]
        simp [List.mem_append]
      · rintro ⟨e, he, hfield, -⟩
        by_contra htax
        rcases (mem_validateCrossFieldRow_iff rowData headers e).mp he with h | h | h | h | h
        · rcases mem_billingRange_shape _ _ _ h with ⟨hf, -⟩ | ⟨hf, -⟩ <;>
            (rw [hfield] at hf; exact absurd hf (by decide))
        · obtain ⟨-, -, -, -, rfl⟩ := (mem_unitsRule_iff _ _ _).mp h
          dsimp only at hfield
          exact absurd hfield (by decide)
        · obtain ⟨-, -, -, -, rfl⟩ := (mem_unitCostRule_iff _ _ _).mp h
          dsimp only at hfield
          exact absurd hfield (by decide)
        · obtain ⟨-, hf⟩ := mem_typeRequired_shape _ _ _ h
          rw [hfield] at hf
          exact absurd hf (by decide)
        · rw [hform] at h
          rw [if_neg (show ¬ dictGet (mkRowDict headers rowData)
              (str "LINE_ITEM_TAX_TOTAL") ≠ [] from fun hh => hh htax)] at h
          split_ifs at h <;>
            (simp only [List.mem_append, List.mem_singleton, List.mem_cons,
              List.not_mem_nil, or_false, List.append_nil, List.nil_append] at h
             casesm* _ ∨ _ <;> subst_vars <;>
               (dsimp only at hfield; exact absurd hfield (by decide)))
      · intro htax
        refine ⟨⟨str "LINE_ITEM_TAX_TOTAL", jsIndexOf headers (str "LINE_ITEM_TAX_TOTAL") + 1,
          dictGet (mkRowDict headers rowData) (str "LINE_ITEM_TAX_TOTAL"),
          calcErrorMessage ((parseFloat (dictGet (mkRowDict headers rowData) (str "LINE_ITEM_NUMBER_OF_UNITS"))).getD 0) ((parseFloat (stripNum (dictGet (mkRowDict headers rowData) (str "LINE_ITEM_UNIT_COST")))).getD 0) ((parseFloat (stripNum (dictGet (mkRowDict headers rowData) (str "LINE_ITEM_ADJUSTMENT_AMOUNT")))).getD 0) ((parseFloat (stripNum (dictGet (mkRowDict headers rowData) (str "LINE_ITEM_TAX_TOTAL")))).getD 0) (((parseFloat (dictGet (mkRowDict headers rowData) (str "LINE_ITEM_NUMBER_OF_UNITS"))).getD 0) * ((parseFloat (stripNum (dictGet (mkRowDict headers rowData) (str "LINE_ITEM_UNIT_COST")))).getD 0) + ((parseFloat (stripNum (dictGet (mkRowDict headers rowData) (str "LINE_ITEM_ADJUSTMENT_AMOUNT")))).getD 0) + ((parseFloat (stripNum (dictGet (mkRowDict headers rowData) (str "LINE_ITEM_TAX_TOTAL")))).getD 0)) ((parseFloat (stripNum (dictGet (mkRowDict headers rowData) (str "LINE_ITEM_TOTAL")))).getD 0), none⟩, hmem _ ?_, rfl, rfl⟩
        rw [hform, if_pos htax]
        simp [List.mem_append]

/-- C6 witness: the reconciliation iff applied to the concrete 199 row. -/
theorem c6_line_total_reconciliation_witness :
    ∃ e ∈ validateCrossFieldRow [str "2", str "100", str "0", str "0", str "199"]
      [str "LINE_ITEM_NUMBER_OF_UNITS", str "LINE_ITEM_UNIT_COST",
       str "LINE_ITEM_ADJUSTMENT_AMOUNT", str "LINE_ITEM_TAX_TOTAL",
       str "LINE_ITEM_TOTAL"],
      e.field = str "LINE_ITEM_TOTAL" := by
  have h := (c6_line_total_reconciliation.1
    [str "LINE_ITEM_NUMBER_OF_UNITS", str "LINE_ITEM_UNIT_COST",
       str "LINE_ITEM_ADJUSTMENT_AMOUNT", str "LINE_ITEM_TAX_TOTAL",
       str "LINE_ITEM_TOTAL"]
    [str "2", str "100", str "0", str "0", str "199"] (by decide) (by decide) (by decide)).1
  refine h.mpr ?_
  have hU : (parseFloat (dictGet (mkRowDict [str "LINE_ITEM_NUMBER_OF_UNITS", str "LINE_ITEM_UNIT_COST",
       str "LINE_ITEM_ADJUSTMENT_AMOUNT", str "LINE_ITEM_TAX_TOTAL",
       str "LINE_ITEM_TOTAL"] [str "2", str "100", str "0", str "0", str "199"])
      (str "LINE_ITEM_NUMBER_OF_UNITS"))).getD 0 = 2 := by decide
  have hC : (parseFloat (stripNum (dictGet (mkRowDict [str "LINE_ITEM_NUMBER_OF_UNITS", str "LINE_ITEM_UNIT_COST",
       str "LINE_ITEM_ADJUSTMENT_AMOUNT", str "LINE_ITEM_TAX_TOTAL",
       str "LINE_ITEM_TOTAL"] [str "2", str "100", str "0", str "0", str "199"])
      (str "LINE_ITEM_UNIT_COST")))).getD 0 = 100 := by decide
  have hA : (parseFloat (stripNum (dictGet (mkRowDict [str "LINE_ITEM_NUMBER_OF_UNITS", str "LINE_ITEM_UNIT_COST",
       str "LINE_ITEM_ADJUSTMENT_AMOUNT", str "LINE_ITEM_TAX_TOTAL",
       str "LINE_ITEM_TOTAL"] [str "2", str "100", str "0", str "0", str "199"])
      (str "LINE_ITEM_ADJUSTMENT_AMOUNT")))).getD 0 = 0 := by decide
  have hT : (parseFloat (stripNum (dictGet (mkRowDict [str "LINE_ITEM_NUMBER_OF_UNITS", str "LINE_ITEM_UNIT_COST",
       str "LINE_ITEM_ADJUSTMENT_AMOUNT", str "LINE_ITEM_TAX_TOTAL",
       str "LINE_ITEM_TOTAL"] [str "2", str "100", str "0", str "0", str "199"])
      (str "LINE_ITEM_TAX_TOTAL")))).getD 0 = 0 := by decide
  have hL : (parseFloat (stripNum (dictGet (mkRowDict [str "LINE_ITEM_NUMBER_OF_UNITS", str "LINE_ITEM_UNIT_COST",
       str "LINE_ITEM_ADJUSTMENT_AMOUNT", str "LINE_ITEM_TAX_TOTAL",
       str "LINE_ITEM_TOTAL"] [str "2", str "100", str "0", str "0", str "199"])
      (str "LINE_ITEM_TOTAL")))).getD 0 = 199 := by decide
  rw [hU, hC, hA, hT, hL]
  norm_num

/-! ## Claim C10 -/

theorem keys_mkParsedRow_general (headers : List Str) (f : Nat → Str) :
    ∀ (L : List (Nat × Str)) (m : List (Str × Str)),
      ((L.foldl (fun m p => objSet m p.2 (f p.1)) m).map Prod.fst) =
        L.foldl (fun acc p => if p.2 ∈ acc then acc else acc ++ [p.2]) (m.map Prod.fst) := by
  intro L
  induction L with
  | nil => intro m; rfl
  | cons q L ih =>
    intro m
    simp only [List.foldl_cons]
    rw [ih (objSet m q.2 (f q.1)), keys_objSet]

/-- Keys of a parsed row: the header list with later duplicates dropped
(JavaScript object keys). -/
theorem keys_mkParsedRow (headers fields : List Str) :
    (mkParsedRow headers fields).map Prod.fst = dedupKeepFirst headers := by
  unfold mkParsedRow dedupKeepFirst
  rw [keys_mkParsedRow_general headers (fun i => trim (fields.getD i [])) headers.enum []]
  conv_rhs => rw [← List.enum_map_snd headers]
  rw [List.foldl_map]
  rfl

/-- Parsed rows only read field positions below the header count. -/
theorem mkParsedRow_congr (headers f1 f2 : List Str)
    (h : ∀ i < headers.length, f1.getD i [] = f2.getD i []) :
    mkParsedRow headers f1 = mkParsedRow headers f2 := by
  unfold mkParsedRow
  have aux : ∀ (L : List (Nat × Str)) (m : List (Str × Str)), (∀ p ∈ L, p.1 < headers.length) →
      L.foldl (fun m p => objSet m p.2 (trim (f1.getD p.1 []))) m =
      L.foldl (fun m p => objSet m p.2 (trim (f2.getD p.1 []))) m := by
    intro L
    induction L with
    | nil => intro m _; rfl
    | cons q L ih =>
      intro m hbound
      simp only [List.foldl_cons]
      rw [h q.1 (hbound q (List.mem_cons_self q L)),
        ih _ (fun p hp => hbound p (List.mem_cons_of_mem q hp))]
  exact aux headers.enum [] (fun p hp => List.fst_lt_of_mem_enum hp)

theorem c10_counterexample :
    parseFile (str "A[]|A[]\n1|2") =
      Except.ok ⟨[str "A", str "A"], [[(str "A", str "2")]]⟩ ∧
    ¬ ([(str "A", str "2")].map Prod.fst = [str "A", str "A"]) := by
  constructor
  · decide
  · decide

/-- C10 (amended): every parsed record has exactly one value per **distinct**
header name — its key list is the header list with later duplicates removed
(for a duplicated header name the later column's value wins, so the record
can be shorter than the header list); positions beyond the header count are
silently discarded, and padding to the header count does not change the
record (short rows read missing positions as empty strings).  Parsing never
reports extra or missing fields as an error. -/
theorem c10_record_shape :
    (∀ (content : Str) (d : LedesData), parseFile content = Except.ok d →
      ∀ row ∈ d.rows, row.map Prod.fst = dedupKeepFirst d.headers) ∧
    (∀ headers fields : List Str,
      mkParsedRow headers fields = mkParsedRow headers (fields.take headers.length)) ∧
    (∀ headers fields : List Str,
      mkParsedRow headers (padTo fields headers.length) = mkParsedRow headers fields) := by
  refine ⟨?_, ?_, ?_⟩
  · intro content d hok row hrow
    unfold parseFile at hok
    by_cases hlen : ((content.splitOn '\n').filter (fun line => decide (trim line ≠ []))).length = 0
    · rw [if_pos hlen] at hok
      exact Except.noConfusion hok
    · rw [if_neg hlen] at hok
      obtain rfl := Except.ok.inj hok
      dsimp only at hrow ⊢
      rw [List.mem_map] at hrow
      obtain ⟨line, -, rfl⟩ := hrow
      exact keys_mkParsedRow _ _
  · intro headers fields
    refine mkParsedRow_congr headers fields (fields.take headers.length) (fun i hi => ?_)
    rw [List.getD_eq_getElem?_getD, List.getD_eq_getElem?_getD, List.getElem?_take, if_pos hi]
  · intro headers fields
    refine mkParsedRow_congr headers (padTo fields headers.length) fields (fun i hi => ?_)
    unfold padTo
    rw [List.getD_eq_getElem?_getD, List.getD_eq_getElem?_getD, List.getElem?_append]
    by_cases hf : i < fields.length
    · rw [if_pos hf]
    · rw [if_neg hf, List.getElem?_replicate]
      split_ifs with h2 <;> rw [List.getElem?_eq_none (by omega)] <;> try rfl

/-- C10 witness: a data line with one extra field against a two-name header
line, evaluated through the theorem. -/
theorem c10_record_shape_witness :
    parseFile (str "a[]|b[]\n1|2|3") =
      Except.ok ⟨[str "a", str "b"], [[(str "a", str "1"), (str "b", str "2")]]⟩ ∧
    [(str "a", str "1"), (str "b", str "2")].map Prod.fst =
      dedupKeepFirst [str "a", str "b"] :=
  ⟨by decide, c10_record_shape.1 (str "a[]|b[]\n1|2|3")
    ⟨[str "a", str "b"], [[(str "a", str "1"), (str "b", str "2")]]⟩ (by decide)
    [(str "a", str "1"), (str "b", str "2")] (by decide)⟩

/-! ## Grouping lemmas (claims C7 and C8) -/

theorem groupGet_nil {α : Type} (k : Str) : groupGet ([] : List (Str × List α)) k = [] := rfl

theorem groupGet_cons {α : Type} (p : Str × List α) (m : List (Str × List α)) (k : Str) :
    groupGet (p :: m) k = if p.1 = k then p.2 else groupGet m k := by
  simp only [groupGet, List.find?_cons]
  by_cases h : p.1 = k <;> simp [h]

theorem keys_groupPush {α : Type} (m : List (Str × List α)) (k : Str) (v : α) :
    (groupPush m k v).map Prod.fst =
      if k ∈ m.map Prod.fst then m.map Prod.fst else m.map Prod.fst ++ [k] := by
  induction m with
  | nil => simp [groupPush]
  | cons p m ih =>
    simp only [groupPush]
    by_cases hp : p.1 = k
    · rw [if_pos hp]
      simp [hp]
    · rw [if_neg hp, List.map_cons, List.map_cons, ih]
      by_cases hk : k ∈ m.map Prod.fst
      · rw [if_pos hk, if_pos (List.mem_cons.mpr (Or.inr hk))]
      · rw [if_neg hk, if_neg (by
          rw [List.mem_cons]
          rintro (he | he)
          · exact hp he.symm
          · exact hk he)]
        simp

theorem groupGet_groupPush {α : Type} (m : List (Str × List α)) (k : Str) (v : α) (k' : Str) :
    groupGet (groupPush m k v) k' =
      if k' = k then groupGet m k ++ [v] else groupGet m k' := by
  induction m with
  | nil =>
    show groupGet [(k, [v])] k' = _
    rw [groupGet_cons]
    by_cases h : k' = k
    · rw [if_pos h.symm, if_pos h]
      rfl
    · rw [if_neg (fun he => h he.symm), if_neg h]
  | cons p m ih =>
    simp only [groupPush]
    by_cases hp : p.1 = k
    · rw [if_pos hp, groupGet_cons]
      by_cases h : k' = k
      · rw [if_pos (show (p.1, p.2 ++ [v]).1 = k' from hp.trans h.symm), if_pos h,
          groupGet_cons, if_pos hp]
      · rw [if_neg (show ¬ (p.1, p.2 ++ [v]).1 = k' from fun he => h (hp.symm.trans he).symm),
          if_neg h, groupGet_cons, if_neg (fun he => h (hp.symm.trans he).symm)]
    · rw [if_neg hp, groupGet_cons, ih]
      by_cases hpk : p.1 = k'
      · rw [if_pos hpk, if_neg (fun he => hp (hpk.trans he)), groupGet_cons, if_pos hpk]
      · rw [if_neg hpk]
        by_cases h : k' = k
        · rw [if_pos h, if_pos h, groupGet_cons, if_neg (fun he => hp he)]
        · rw [if_neg h, if_neg h, groupGet_cons, if_neg hpk]

theorem groupFold_cons {α : Type} (kv : Str × α) (items : List (Str × α))
    (m : List (Str × List α)) :
    groupFold (kv :: items) m = groupFold items (groupPush m kv.1 kv.2) := rfl

theorem keys_groupFold_nodup {α : Type} (items : List (Str × α)) :
    ∀ m : List (Str × List α), (m.map Prod.fst).Nodup →
      ((groupFold items m).map Prod.fst).Nodup := by
  induction items with
  | nil => intro m h; exact h
  | cons kv items ih =>
    intro m h
    rw [groupFold_cons]
    refine ih _ ?_
    rw [keys_groupPush]
    split_ifs with hk
    · exact h
    · simp [List.nodup_append, h, hk]

theorem groupGet_groupFold {α : Type} (items : List (Str × α)) (k : Str) :
    ∀ m, groupGet (groupFold items m) k =
      groupGet m k ++ (items.filter (fun kv => decide (kv.1 = k))).map Prod.snd := by
  induction items with
  | nil => intro m; simp [groupFold]
  | cons kv items ih =>
    intro m
    rw [groupFold_cons, ih, groupGet_groupPush, List.filter_cons]
    by_cases h : kv.1 = k
    · rw [if_pos h.symm, if_pos (show decide (kv.1 = k) = true by simp [h]),
        List.map_cons, h]
      simp [List.append_assoc]
    · rw [if_neg (fun he => h he.symm), if_neg (show ¬ decide (kv.1 = k) = true by simp [h])]

theorem find?_eq_of_mem_keys_nodup {α : Type} (m : List (Str × List α)) (k : Str)
    (g : List α) (hnd : (m.map Prod.fst).Nodup) (hm : (k, g) ∈ m) :
    m.find? (fun p => p.1 = k) = some (k, g) := by
  induction m with
  | nil => exact absurd hm (List.not_mem_nil _)
  | cons p m ih =>
    rw [List.map_cons, List.nodup_cons] at hnd
    rw [List.mem_cons] at hm
    rcases hm with rfl | hm
    · rw [List.find?_cons]
      simp
    · have hk : k ∈ m.map Prod.fst := by
        have := List.mem_map_of_mem Prod.fst hm
        simpa using this
      have hp : ¬ p.1 = k := fun he => hnd.1 (he ▸ hk)
      rw [List.find?_cons, decide_eq_false hp]
      exact ih hnd.2 hm

theorem groupGet_eq_of_mem {α : Type} (m : List (Str × List α)) (k : Str)
    (g : List α) (hnd : (m.map Prod.fst).Nodup) (hm : (k, g) ∈ m) :
    groupGet m k = g := by
  unfold groupGet
  rw [find?_eq_of_mem_keys_nodup m k g hnd hm]
  rfl

theorem mem_groupPush {α : Type} (m : List (Str × List α)) (k : Str) (v : α)
    (q : Str × List α) (hq : q ∈ groupPush m k v) : q ∈ m ∨ q.2 ≠ [] := by
  induction m with
  | nil =>
    rw [show groupPush ([] : List (Str × List α)) k v = [(k, [v])] from rfl,
      List.mem_singleton] at hq
    exact Or.inr (by rw [hq]; exact List.cons_ne_nil v [])
  | cons p m ih =>
    simp only [groupPush] at hq
    by_cases hp : p.1 = k
    · rw [if_pos hp, List.mem_cons] at hq
      rcases hq with rfl | hq
      · exact Or.inr (by simp)
      · exact Or.inl (List.mem_cons_of_mem p hq)
    · rw [if_neg hp, List.mem_cons] at hq
      rcases hq with rfl | hq
      · exact Or.inl (List.mem_cons_self _ _)
      · rcases ih hq with h | h
        · exact Or.inl (List.mem_cons_of_mem p h)
        · exact Or.inr h

theorem groupFold_vals_ne_nil {α : Type} (items : List (Str × α)) :
    ∀ m : List (Str × List α), (∀ p ∈ m, p.2 ≠ []) →
      ∀ p ∈ groupFold items m, p.2 ≠ [] := by
  induction items with
  | nil => intro m h; exact h
  | cons kv items ih =>
    intro m h
    rw [groupFold_cons]
    refine ih _ (fun p hp => ?_)
    rcases mem_groupPush _ _ _ _ hp with h' | h'
    · exact h p h'
    · exact h'

theorem lineItemNumberGroups_eq (dataset : List (List Str)) (idx : Nat) :
    lineItemNumberGroups dataset idx =
      groupFold (dataset.enum.filterMap (fun p =>
        if p.2.getD idx [] ≠ [] ∧ trim (p.2.getD idx []) ≠ [] then
          some (p.2.getD idx [], p.1 + 1)
        else none)) [] := by
  unfold lineItemNumberGroups groupFold
  generalize dataset.enum = L
  suffices aux : ∀ m : List (Str × List Nat),
      L.foldl (fun m p =>
        let lineItemNumber := p.2.getD idx []
        if lineItemNumber ≠ [] ∧ trim lineItemNumber ≠ [] then
          groupPush m lineItemNumber (p.1 + 1)
        else m) m =
      (L.filterMap (fun p =>
        if p.2.getD idx [] ≠ [] ∧ trim (p.2.getD idx []) ≠ [] then
          some (p.2.getD idx [], p.1 + 1)
        else none)).foldl (fun m kv => groupPush m kv.1 kv.2) m by
    exact aux []
  induction L with
  | nil => intro m; rfl
  | cons q L ih =>
    intro m
    rw [List.foldl_cons]
    dsimp only
    by_cases hq : q.2.getD idx [] ≠ [] ∧ trim (q.2.getD idx []) ≠ []
    · rw [if_pos hq, List.filterMap_cons_some (by rw [if_pos hq]), List.foldl_cons]
      exact ih _
    · rw [if_neg hq, List.filterMap_cons_none (by rw [if_neg hq])]
      exact ih _

theorem uniq_occs_eq (idx : Nat) (v : Str) (hv1 : v ≠ []) (hv2 : trim v ≠ []) :
    ∀ L : List (Nat × List Str),
      ((L.filterMap (fun p =>
          if p.2.getD idx [] ≠ [] ∧ trim (p.2.getD idx []) ≠ [] then
            some (p.2.getD idx [], p.1 + 1) else none)).filter
        (fun kv => decide (kv.1 = v))).map Prod.snd =
      (L.filter (fun p => decide (p.2.getD idx [] = v))).map (fun p => p.1 + 1) := by
  intro L
  induction L with
  | nil => rfl
  | cons q L ih =>
    by_cases hq : q.2.getD idx [] = v
    · have hg : q.2.getD idx [] ≠ [] ∧ trim (q.2.getD idx []) ≠ [] := by
        rw [hq]; exact ⟨hv1, hv2⟩
      rw [List.filterMap_cons_some (by rw [if_pos hg]), List.filter_cons, List.filter_cons,
        if_pos (show decide ((q.2.getD idx [], q.1 + 1).1 = v) = true from decide_eq_true hq),
        if_pos (decide_eq_true hq), List.map_cons, List.map_cons, ih]
    · by_cases hg : q.2.getD idx [] ≠ [] ∧ trim (q.2.getD idx []) ≠ []
      · rw [List.filterMap_cons_some (by rw [if_pos hg]), List.filter_cons, List.filter_cons,
          if_neg (show ¬ decide ((q.2.getD idx [], q.1 + 1).1 = v) = true from
            fun hd => hq (of_decide_eq_true hd)),
          if_neg (fun hd => hq (of_decide_eq_true hd)), ih]
      · rw [List.filterMap_cons_none (by rw [if_neg hg]), List.filter_cons,
          if_neg (fun hd => hq (of_decide_eq_true hd)), ih]

theorem uniqErrors_filter_char (groups : List (Str × List Nat)) (v : Str) :
    ((groups.map Prod.fst).Nodup) →
    ((groups.filterMap (fun p =>
        if 1 < p.2.length then
          some { type := str "line_item_uniqueness",
                 invoice_identifier := str "LINE_ITEM_NUMBER=" ++ p.1,
                 error := str "Line item number " ++ p.1 ++ str " is not unique",
                 affected_rows := p.2 }
        else (none : Option DatasetValidationError))).filter
      (fun e => decide (e.invoice_identifier = str "LINE_ITEM_NUMBER=" ++ v))) =
      if 1 < (groupGet groups v).length then
        [{ type := str "line_item_uniqueness",
           invoice_identifier := str "LINE_ITEM_NUMBER=" ++ v,
           error := str "Line item number " ++ v ++ str " is not unique",
           affected_rows := groupGet groups v }]
      else [] := by
  induction groups with
  | nil =>
    intro _
    rw [groupGet_nil]
    rfl
  | cons p groups ih =>
    intro hnd
    rw [List.map_cons, List.nodup_cons] at hnd
    rw [groupGet_cons]
    by_cases hp : p.1 = v
    · rw [if_pos hp]
      have htail : (groups.filterMap (fun p =>
          if 1 < p.2.length then
            some { type := str "line_item_uniqueness",
                   invoice_identifier := str "LINE_ITEM_NUMBER=" ++ p.1,
                   error := str "Line item number " ++ p.1 ++ str " is not unique",
                   affected_rows := p.2 }
          else (none : Option DatasetValidationError))).filter
          (fun e => decide (e.invoice_identifier = str "LINE_ITEM_NUMBER=" ++ v)) = [] := by
        rw [List.filter_eq_nil]
        intro e he
        rw [List.mem_filterMap] at he
        obtain ⟨q, hq, hfq⟩ := he
        split_ifs at hfq
        · obtain rfl := Option.some.inj hfq
          simp only [decide_eq_true_eq]
          intro he2
          have : q.1 = v := List.append_cancel_left he2
          exact hnd.1 (hp ▸ this ▸ List.mem_map_of_mem Prod.fst hq)
      by_cases hlen : 1 < p.2.length
      · rw [List.filterMap_cons_some (by rw [if_pos hlen]), List.filter_cons,
          if_pos (decide_eq_true (show _ ++ _ = _ ++ v by rw [hp])), htail, if_pos hlen, hp]
      · rw [List.filterMap_cons_none (by rw [if_neg hlen]), htail, if_neg hlen]
    · rw [if_neg hp]
      by_cases hlen : 1 < p.2.length
      · rw [List.filterMap_cons_some (by rw [if_pos hlen]), List.filter_cons,
          if_neg (by
            simp only [decide_eq_true_eq]
            exact fun he => hp (List.append_cancel_left he))]
        exact ih hnd.2
      · rw [List.filterMap_cons_none (by rw [if_neg hlen])]
        exact ih hnd.2

/-- C8: with `LINE_ITEM_NUMBER` present at a given column, each value that is
neither empty nor whitespace-only receives exactly one `line_item_uniqueness`
error — naming the value and listing the 1-based row numbers of **all** its
occurrences across the whole dataset, regardless of invoice grouping — when
it occurs on more than one row, and no such error otherwise. -/
theorem c8_line_item_number_uniqueness :
    ∀ (dataset : List (List Str)) (headers : List Str) (idx : Nat),
      headers.findIdx? (fun h => decide (h = str "LINE_ITEM_NUMBER")) = some idx →
      ∀ v : Str, v ≠ [] → trim v ≠ [] →
      (validateUniqueLineItemNumbers dataset headers).filter
        (fun e => decide (e.invoice_identifier = str "LINE_ITEM_NUMBER=" ++ v)) =
      (if 1 < ((dataset.enum.filter (fun p => decide (p.2.getD idx [] = v))).map
          (fun p => p.1 + 1)).length then
         [{ type := str "line_item_uniqueness",
            invoice_identifier := str "LINE_ITEM_NUMBER=" ++ v,
            error := str "Line item number " ++ v ++ str " is not unique",
            affected_rows := (dataset.enum.filter
              (fun p => decide (p.2.getD idx [] = v))).map (fun p => p.1 + 1) }]
       else []) := by
  intro dataset headers idx hidx v hv1 hv2
  unfold validateUniqueLineItemNumbers
  rw [hidx]
  dsimp only
  rw [lineItemNumberGroups_eq]
  rw [uniqErrors_filter_char _ _ (keys_groupFold_nodup _ [] (by simp))]
  rw [groupGet_groupFold, groupGet_nil, List.nil_append, uniq_occs_eq idx v hv1 hv2]

/-- C8 witness: two rows sharing `LINE_ITEM_NUMBER = "5"`, evaluated through
the theorem. -/
theorem c8_line_item_number_uniqueness_witness :
    (validateUniqueLineItemNumbers [[str "5"], [str "5"]] [str "LINE_ITEM_NUMBER"]).filter
      (fun e => decide (e.invoice_identifier = str "LINE_ITEM_NUMBER=" ++ str "5")) =
      [{ type := str "line_item_uniqueness",
         invoice_identifier := str "LINE_ITEM_NUMBER=" ++ str "5",
         error := str "Line item number " ++ str "5" ++ str " is not unique",
         affected_rows := [1, 2] }] := by
  have h := c8_line_item_number_uniqueness [[str "5"], [str "5"]] [str "LINE_ITEM_NUMBER"] 0
    (by decide) (str "5") (by decide) (by decide)
  rw [h]
  decide

theorem flat_groupPush_perm {α : Type} (m : List (Str × List α)) (k : Str) (v : α) :
    List.Perm ((groupPush m k v).map Prod.snd).flatten
      (((m.map Prod.snd).flatten) ++ [v]) := by
  induction m with
  | nil => simp [groupPush]
  | cons p m ih =>
    simp only [groupPush]
    by_cases hp : p.1 = k
    · rw [if_pos hp]
      simp only [List.map_cons, List.flatten_cons, List.append_assoc]
      exact List.Perm.append_left p.2 (List.perm_append_comm)
    · rw [if_neg hp]
      simp only [List.map_cons, List.flatten_cons, List.append_assoc]
      exact List.Perm.append_left p.2 ih

theorem flat_groupFold_perm {α : Type} (items : List (Str × α)) :
    ∀ m : List (Str × List α),
      List.Perm ((groupFold items m).map Prod.snd).flatten
        ((m.map Prod.snd).flatten ++ items.map Prod.snd) := by
  induction items with
  | nil => intro m; simp [groupFold]
  | cons kv items ih =>
    intro m
    rw [groupFold_cons]
    refine (ih (groupPush m kv.1 kv.2)).trans ?_
    refine (List.Perm.append_right _ (flat_groupPush_perm m kv.1 kv.2)).trans ?_
    rw [List.map_cons, List.append_assoc]
    exact List.Perm.refl _

theorem mem_insertSortJS (x y : ℚ) (l : List ℚ) (h : y ∈ insertSortJS x l) :
    y = x ∨ y ∈ l := by
  induction l with
  | nil =>
    rw [show insertSortJS x [] = [x] from rfl, List.mem_singleton] at h
    exact Or.inl h
  | cons z l ih =>
    simp only [insertSortJS] at h
    split_ifs at h
    · rw [List.mem_cons] at h
      rcases h with rfl | h
      · exact Or.inl rfl
      · exact Or.inr h
    · rw [List.mem_cons] at h
      rcases h with rfl | h
      · exact Or.inr (List.mem_cons_self _ _)
      · rcases ih h with h' | h'
        · exact Or.inl h'
        · exact Or.inr (List.mem_cons_of_mem z h')

theorem insertSortJS_perm (x : ℚ) (l : List ℚ) :
    List.Perm (insertSortJS x l) (x :: l) := by
  induction l with
  | nil => exact List.Perm.refl _
  | cons z l ih =>
    simp only [insertSortJS]
    split_ifs
    · exact List.Perm.refl _
    · exact (List.Perm.cons z ih).trans (List.Perm.swap x z l)

theorem sortJS_perm (l : List ℚ) : List.Perm (sortJS l) l := by
  induction l with
  | nil => exact List.Perm.refl _
  | cons x l ih =>
    simp only [sortJS, List.foldr_cons]
    exact (insertSortJS_perm x _).trans (List.Perm.cons x ih)

theorem strLtJS_head_le (a b : Char) (as bs : Str)
    (h : strLtJS (a :: as) (b :: bs) = true) : a.toNat ≤ b.toNat := by
  rw [strLtJS] at h
  split_ifs at h with h1 h2
  · omega
  · omega

theorem strLtJS_trans (a : Str) : ∀ b c : Str,
    strLtJS a b = true → strLtJS b c = true → strLtJS a c = true := by
  induction a with
  | nil =>
    intro b c hab hbc
    cases c with
    | nil =>
      cases b with
      | nil => exact hab
      | cons y ys => exact absurd hbc (by rw [strLtJS]; exact Bool.false_ne_true)
    | cons z zs => rw [strLtJS]
  | cons x xs ih =>
    intro b c hab hbc
    cases b with
    | nil => exact absurd hab (by rw [strLtJS]; exact Bool.false_ne_true)
    | cons y ys =>
      cases c with
      | nil => exact absurd hbc (by rw [strLtJS]; exact Bool.false_ne_true)
      | cons z zs =>
        have hxy := strLtJS_head_le x y xs ys hab
        have hyz := strLtJS_head_le y z ys zs hbc
        rw [strLtJS]
        by_cases h1 : x.toNat < z.toNat
        · rw [if_pos h1]
        · rw [if_neg h1, if_neg (by omega)]
          have hxz : x.toNat = z.toNat := by omega
          rw [strLtJS, if_neg (by omega), if_neg (by omega)] at hab
          rw [strLtJS, if_neg (by omega), if_neg (by omega)] at hbc
          exact ih ys zs hab hbc

theorem strLtJS_asymm (a : Str) : ∀ b : Str, strLtJS a b = true → strLtJS b a = false := by
  induction a with
  | nil =>
    intro b h
    cases b with
    | nil => exact absurd h (by rw [strLtJS]; exact Bool.false_ne_true)
    | cons y ys => rw [strLtJS]
  | cons x xs ih =>
    intro b h
    cases b with
    | nil => exact absurd h (by rw [strLtJS]; exact Bool.false_ne_true)
    | cons y ys =>
      have hle := strLtJS_head_le x y xs ys h
      rw [strLtJS]
      by_cases h1 : y.toNat < x.toNat
      · exact absurd hle (by omega)
      · rw [if_neg h1]
        by_cases h2 : x.toNat < y.toNat
        · rw [if_pos h2]
        · rw [if_neg h2]
          rw [strLtJS, if_neg h2, if_neg h1] at h
          exact ih ys h

theorem pairwise_insertSortJS (x : ℚ) (l : List ℚ)
    (hl : l.Pairwise (fun a b => strLtJS (numToStr b) (numToStr a) = false)) :
    (insertSortJS x l).Pairwise (fun a b => strLtJS (numToStr b) (numToStr a) = false) := by
  induction l with
  | nil => simp [insertSortJS]
  | cons y ys ih =>
    rw [List.pairwise_cons] at hl
    simp only [insertSortJS]
    split_ifs with hxy
    · rw [List.pairwise_cons]
      constructor
      · intro b hb
        rw [List.mem_cons] at hb
        rcases hb with rfl | hb
        · exact strLtJS_asymm _ _ hxy
        · cases hsb : strLtJS (numToStr b) (numToStr x) with
          | false => rfl
          | true =>
            exact absurd (strLtJS_trans _ _ _ hsb hxy)
              (by rw [hl.1 b hb]; exact Bool.false_ne_true)
      · rw [List.pairwise_cons]
        exact ⟨hl.1, hl.2⟩
    · rw [List.pairwise_cons]
      refine ⟨?_, ih hl.2⟩
      intro b hb
      rcases mem_insertSortJS x b ys hb with rfl | hb
      · cases h' : strLtJS (numToStr b) (numToStr y) with
        | false => rfl
        | true => exact absurd h' hxy
      · exact hl.1 b hb

theorem sortJS_pairwise (l : List ℚ) :
    (sortJS l).Pairwise (fun a b => strLtJS (numToStr b) (numToStr a) = false) := by
  induction l with
  | nil => exact List.Pairwise.nil
  | cons x l ih =>
    simp only [sortJS, List.foldr_cons]
    exact pairwise_insertSortJS x _ ih

theorem distinctTotals_nodup (g : List (Nat × Str)) : (distinctTotals g).Nodup := by
  unfold distinctTotals
  have aux : ∀ (l : List (Nat × Str)) (acc : List ℚ), acc.Nodup →
      (l.foldl (fun acc p =>
        if p.2 ≠ [] then
          match parseFloat (stripNum p.2) with
          | some q => if q ∈ acc then acc else acc ++ [q]
          | none => acc
        else acc) acc).Nodup := by
    intro l
    induction l with
    | nil => intro acc h; exact h
    | cons q l ih =>
      intro acc h
      rw [List.foldl_cons]
      refine ih _ ?_
      dsimp only
      split_ifs with h1
      · split
        · split_ifs with hm
          · exact h
          · simp [List.nodup_append, h, hm]
        · exact h
      · exact h
  exact aux g [] List.nodup_nil

theorem count_filterMap {β γ : Type} [DecidableEq γ] (F : β → Option γ) (l : List β) (e : γ) :
    (l.filterMap F).count e = l.countP (fun b => decide (F b = some e)) := by
  induction l with
  | nil => rfl
  | cons a l ih =>
    cases hF : F a with
    | none =>
      rw [List.filterMap_cons_none hF, List.countP_cons, ih]
      simp [hF]
    | some b =>
      rw [List.filterMap_cons_some hF, List.count_cons, List.countP_cons, ih, hF]
      by_cases hb : b = e
      · simp [hb]
      · simp [hb]

theorem countP_eq_one_of_unique {γ : Type} (P : γ → Bool) (l : List γ) (a : γ)
    (hnd : l.Nodup) (ha : a ∈ l) (hPa : P a = true)
    (huniq : ∀ b ∈ l, P b = true → b = a) : l.countP P = 1 := by
  induction l with
  | nil => exact absurd ha (List.not_mem_nil a)
  | cons x l ih =>
    rw [List.nodup_cons] at hnd
    rw [List.countP_cons]
    rw [List.mem_cons] at ha
    rcases ha with rfl | ha
    · rw [if_pos hPa]
      have hz : l.countP P = 0 := by
        rw [List.countP_eq_zero]
        intro b hb hPb
        exact hnd.1 ((huniq b (List.mem_cons_of_mem _ hb) hPb) ▸ hb)
      rw [hz]
    · have hx : ¬ P x = true := fun hPx =>
        hnd.1 ((huniq x (List.mem_cons_self x l) hPx) ▸ ha)
      rw [if_neg hx, Nat.add_zero]
      exact ih hnd.2 ha (fun b hb hPb => huniq b (List.mem_cons_of_mem _ hb) hPb)

theorem consistencyGroups_eq (dataset : List (List Str)) (headers : List Str) :
    consistencyGroups dataset headers =
      groupFold (dataset.enum.map (fun p =>
        (invoiceKey headers p.2,
         (p.1, dictGet (mkRowDict headers p.2) (str "INVOICE_TOTAL"))))) [] := by
  unfold consistencyGroups groupFold
  rw [List.foldl_map]

theorem consistencyGroups_indexLists_nodup (dataset : List (List Str)) (headers : List Str) :
    ((consistencyGroups dataset headers).map (fun p => p.2.map Prod.fst)).Nodup := by
  have hflat : List.Perm
      (((consistencyGroups dataset headers).map Prod.snd).flatten)
      (dataset.enum.map (fun p =>
        (p.1, dictGet (mkRowDict headers p.2) (str "INVOICE_TOTAL")))) := by
    rw [consistencyGroups_eq]
    have h := flat_groupFold_perm (dataset.enum.map (fun p =>
      (invoiceKey headers p.2,
       (p.1, dictGet (mkRowDict headers p.2) (str "INVOICE_TOTAL"))))) []
    simpa only [List.map_map, List.map_nil, List.flatten_nil, List.nil_append] using h
  have hfst : List.Perm
      ((((consistencyGroups dataset headers).map Prod.snd).flatten).map Prod.fst)
      (List.range dataset.length) := by
    have h2 := hflat.map Prod.fst
    rw [List.map_map] at h2
    have h3 : dataset.enum.map (Prod.fst ∘ (fun p : Nat × List Str =>
        (p.1, dictGet (mkRowDict headers p.2) (str "INVOICE_TOTAL")))) =
        List.range dataset.length := List.enum_map_fst dataset
    rwa [h3] at h2
  have hnodup : ((((consistencyGroups dataset headers).map Prod.snd).flatten).map
      Prod.fst).Nodup := hfst.nodup_iff.mpr (List.nodup_range _)
  rw [List.map_flatten, List.map_map, List.nodup_flatten] at hnodup
  have hne : ∀ q ∈ (consistencyGroups dataset headers).map
      (fun p => p.2.map Prod.fst), q ≠ [] := by
    intro q hq
    rcases List.mem_map.mp hq with ⟨p, hp, rfl⟩
    have hp2 : p.2 ≠ [] := by
      rw [consistencyGroups_eq] at hp
      exact groupFold_vals_ne_nil _ [] (fun r hr => absurd hr (List.not_mem_nil r)) p hp
    intro hmap
    exact hp2 (by simpa using hmap)
  refine List.Pairwise.imp_of_mem ?_ hnodup.2
  intro a b ha hb hdisj hab
  subst hab
  rcases List.exists_mem_of_ne_nil a (hne a ha) with ⟨x, hx⟩
  exact hdisj hx hx

theorem consistencyGroups_nodup (dataset : List (List Str)) (headers : List Str) :
    (consistencyGroups dataset headers).Nodup :=
  List.Nodup.of_map _ (consistencyGroups_indexLists_nodup dataset headers)

theorem consistencyGroups_inj (dataset : List (List Str)) (headers : List Str)
    {p q : Str × List (Nat × Str)}
    (hp : p ∈ consistencyGroups dataset headers)
    (hq : q ∈ consistencyGroups dataset headers)
    (h : p.2.map Prod.fst = q.2.map Prod.fst) : p = q :=
  List.inj_on_of_nodup_map (consistencyGroups_indexLists_nodup dataset headers) hp hq h

/-- C7: for every invoice group (composite key over the present identifier
fields) of size greater than 1 carrying more than one distinct numeric
`INVOICE_TOTAL`, `validateInvoiceTotalsConsistency` emits exactly one
`invoice_consistency` error for that group; its `affected_rows` lists every
member row number (1-based, in row order) and its message lists the distinct
totals (each exactly once) sorted by the default JavaScript string
comparison of their printed forms — NOT numerically ascending. -/
theorem c7_consistency_error_per_group (dataset : List (List Str)) (headers : List Str)
    (k : Str) (g : List (Nat × Str))
    (hhdr : headers.contains (str "INVOICE_TOTAL") = true)
    (hid : availableIdentifiers headers ≠ [])
    (hmem : (k, g) ∈ consistencyGroups dataset headers)
    (hlen : 1 < g.length)
    (hdist : 1 < (distinctTotals g).length) :
    (validateInvoiceTotalsConsistency dataset headers).count
        (consistencyError headers k g) = 1 ∧
    (consistencyError headers k g).type = str "invoice_consistency" ∧
    (consistencyError headers k g).affected_rows = g.map (fun p => p.1 + 1) ∧
    (consistencyError headers k g).error =
      str "Invoice has inconsistent totals: " ++
        List.intercalate (str ", ") ((sortJS (distinctTotals g)).map numToStr) ∧
    List.Perm (sortJS (distinctTotals g)) (distinctTotals g) ∧
    (sortJS (distinctTotals g)).Pairwise
      (fun a b => strLtJS (numToStr b) (numToStr a) = false) ∧
    (distinctTotals g).Nodup := by
  refine ⟨?_, rfl, rfl, rfl, sortJS_perm _, sortJS_pairwise _, distinctTotals_nodup g⟩
  unfold validateInvoiceTotalsConsistency
  rw [if_neg (not_not_intro hhdr), if_neg hid, count_filterMap]
  refine countP_eq_one_of_unique _ _ (k, g)
    (consistencyGroups_nodup dataset headers) hmem ?_ ?_
  · show decide ((if g.length ≤ 1 then none
      else if 1 < (distinctTotals g).length then
        some (consistencyError headers k g) else none) =
      some (consistencyError headers k g)) = true
    rw [if_neg (show ¬ g.length ≤ 1 by omega), if_pos hdist]
    exact decide_eq_true rfl
  · rintro ⟨k', g'⟩ hb hPb
    have hsome : (if g'.length ≤ 1 then none
        else if 1 < (distinctTotals g').length then
          some (consistencyError headers k' g') else none) =
        some (consistencyError headers k g) := of_decide_eq_true hPb
    by_cases h1 : g'.length ≤ 1
    · rw [if_pos h1] at hsome
      exact absurd hsome (by simp)
    · rw [if_neg h1] at hsome
      by_cases h2 : 1 < (distinctTotals g').length
      · rw [if_pos h2, Option.some_inj] at hsome
        have haff : g'.map (fun p => p.1 + 1) = g.map (fun p => p.1 + 1) :=
          congrArg DatasetValidationError.affected_rows hsome
        have hidx : g'.map (fun p : Nat × Str => p.1) =
            g.map (fun p : Nat × Str => p.1) := by
          have h3 := congrArg (List.map (fun n => n - 1)) haff
          rw [List.map_map, List.map_map] at h3
          exact h3
        exact consistencyGroups_inj dataset headers hb hmem hidx
      · rw [if_neg h2] at hsome
        exact absurd hsome (by simp)

theorem c7_consistency_error_per_group_witness :
    ([str "INVOICE_NUMBER", str "INVOICE_TOTAL"].contains (str "INVOICE_TOTAL") = true) ∧
    ((str "INV-1", [(0, str "100.00"), (1, str "150.00")]) ∈
      consistencyGroups [[str "INV-1", str "100.00"], [str "INV-1", str "150.00"]]
        [str "INVOICE_NUMBER", str "INVOICE_TOTAL"]) ∧
    (validateInvoiceTotalsConsistency
        [[str "INV-1", str "100.00"], [str "INV-1", str "150.00"]]
        [str "INVOICE_NUMBER", str "INVOICE_TOTAL"]).count
      (consistencyError [str "INVOICE_NUMBER", str "INVOICE_TOTAL"] (str "INV-1")
        [(0, str "100.00"), (1, str "150.00")]) = 1 ∧
    (consistencyError [str "INVOICE_NUMBER", str "INVOICE_TOTAL"] (str "INV-1")
        [(0, str "100.00"), (1, str "150.00")]).affected_rows = [1, 2] ∧
    (consistencyError [str "INVOICE_NUMBER", str "INVOICE_TOTAL"] (str "INV-1")
        [(0, str "100.00"), (1, str "150.00")]).error =
      str "Invoice has inconsistent totals: 100, 150" := by
  refine ⟨by decide, by decide, ?_, by decide, by decide⟩
  exact (c7_consistency_error_per_group
    [[str "INV-1", str "100.00"], [str "INV-1", str "150.00"]]
    [str "INVOICE_NUMBER", str "INVOICE_TOTAL"] (str "INV-1")
    [(0, str "100.00"), (1, str "150.00")]
    (by decide) (by decide) (by decide) (by decide) (by decide)).1

/-- C7 counterexample: for totals 9 and 100 in one invoice group, the single
emitted message lists them as `100, 9` (default JavaScript sort compares the
printed strings), not in ascending numeric order `9, 100` as the claim
states. -/
theorem c7_counterexample :
    validateInvoiceTotalsConsistency
        [[str "1", str "9"], [str "1", str "100"]]
        [str "INVOICE_NUMBER", str "INVOICE_TOTAL"] =
      [{ type := str "invoice_consistency",
         invoice_identifier := str "INVOICE_NUMBER=1",
         error := str "Invoice has inconsistent totals: 100, 9",
         affected_rows := [1, 2] }] ∧
    str "Invoice has inconsistent totals: 100, 9" ≠
      str "Invoice has inconsistent totals: 9, 100" := ⟨by decide, by decide⟩

theorem intercalate_cons_cons (s a b : Str) (t : List Str) :
    List.intercalate s (a :: b :: t) = a ++ s ++ List.intercalate s (b :: t) := by
  simp [List.intercalate, List.intersperse]

theorem intercalate_single (s a : Str) : List.intercalate s [a] = a := by
  simp [List.intercalate]

theorem mem_intercalate_char {c s : Char} :
    ∀ L : List Str, c ∈ List.intercalate [s] L → c = s ∨ ∃ v ∈ L, c ∈ v
  | [], h => absurd h (by simp [List.intercalate])
  | [a], h => Or.inr ⟨a, List.mem_cons_self a [], by rwa [intercalate_single] at h⟩
  | a :: b :: t, h => by
    rw [intercalate_cons_cons, List.append_assoc] at h
    rcases List.mem_append.mp h with h | h
    · exact Or.inr ⟨a, List.mem_cons_self _ _, h⟩
    · rcases List.mem_append.mp h with h | h
      · exact Or.inl (List.mem_singleton.mp h)
      · rcases mem_intercalate_char (b :: t) h with h | ⟨v, hv, hc⟩
        · exact Or.inl h
        · exact Or.inr ⟨v, List.mem_cons_of_mem a hv, hc⟩

theorem pipe_mem_intercalate (s : Char) (a b : Str) (t : List Str) :
    s ∈ List.intercalate [s] (a :: b :: t) := by
  rw [intercalate_cons_cons, List.append_assoc]
  exact List.mem_append.mpr (Or.inr (List.mem_append.mpr (Or.inl (List.mem_cons_self s []))))

theorem dropWhile_eq_self_of_trim_fixed (l : Str) (h : trim l = l) :
    l.dropWhile isWS = l := by
  refine (List.dropWhile_suffix isWS).eq_of_length ?_
  have h1 : (trim l).length ≤ (l.dropWhile isWS).length := by
    rw [trim]
    calc (((l.dropWhile isWS).reverse.dropWhile isWS).reverse).length
        = ((l.dropWhile isWS).reverse.dropWhile isWS).length := List.length_reverse _
      _ ≤ (l.dropWhile isWS).reverse.length := (List.dropWhile_suffix isWS).length_le
      _ = (l.dropWhile isWS).length := List.length_reverse _
  rw [h] at h1
  have h2 : (l.dropWhile isWS).length ≤ l.length := (List.dropWhile_suffix isWS).length_le
  omega

theorem rev_dropWhile_eq_self_of_trim_fixed (l : Str) (h : trim l = l) :
    l.reverse.dropWhile isWS = l.reverse := by
  have hd := dropWhile_eq_self_of_trim_fixed l h
  have h2 : (l.reverse.dropWhile isWS).reverse = l := by
    rw [trim, hd] at h
    exact h
  have h3 := congrArg List.reverse h2
  rwa [List.reverse_reverse] at h3

theorem trim_fixed_of_dropWhile (l : Str)
    (hh : l.dropWhile isWS = l) (hg : l.reverse.dropWhile isWS = l.reverse) :
    trim l = l := by
  rw [trim, hh, hg, List.reverse_reverse]

theorem dropWhile_pipe_cons (X : Str) :
    (('|' :: X) : Str).dropWhile isWS = '|' :: X := by
  rw [List.dropWhile_cons, if_neg (by decide)]

theorem dropWhile_append_fix (l r : Str) (hl : l.dropWhile isWS = l)
    (hr : r.dropWhile isWS = r) : (l ++ r).dropWhile isWS = l ++ r := by
  by_cases he : l = []
  · subst he
    rw [List.nil_append, hr]
  · rw [List.dropWhile_append, hl, if_neg (by simpa [List.isEmpty_iff] using he)]

theorem dropWhile_intercalate_left (a b : Str) (t : List Str)
    (ha : a.dropWhile isWS = a) :
    (List.intercalate ['|'] (a :: b :: t)).dropWhile isWS =
      List.intercalate ['|'] (a :: b :: t) := by
  rw [intercalate_cons_cons, List.append_assoc]
  exact dropWhile_append_fix a ('|' :: List.intercalate ['|'] (b :: t)) ha
    (dropWhile_pipe_cons _)

theorem rev_dropWhile_intercalate : ∀ L : List Str, L ≠ [] →
    (∀ v ∈ L, v.reverse.dropWhile isWS = v.reverse) →
    (List.intercalate ['|'] L).reverse.dropWhile isWS =
      (List.intercalate ['|'] L).reverse
  | [], h, _ => absurd rfl h
  | [a], _, hall => by
    rw [intercalate_single]
    exact hall a (List.mem_cons_self a [])
  | a :: b :: t, _, hall => by
    have hX := rev_dropWhile_intercalate (b :: t) (List.cons_ne_nil b t)
      (fun v hv => hall v (List.mem_cons_of_mem a hv))
    rw [intercalate_cons_cons, List.append_assoc, List.reverse_append, List.reverse_append]
    exact dropWhile_append_fix _ _
      (dropWhile_append_fix _ _ hX (dropWhile_pipe_cons []))
      (hall a (List.mem_cons_self a (b :: t)))

theorem trim_intercalate (values : List Str) (h2 : 2 ≤ values.length)
    (htr : ∀ v ∈ values, trim v = v) :
    trim (List.intercalate ['|'] values) = List.intercalate ['|'] values := by
  cases values with
  | nil => simp at h2
  | cons a vs =>
    cases vs with
    | nil => simp at h2
    | cons b t =>
      refine trim_fixed_of_dropWhile _ ?_ ?_
      · exact dropWhile_intercalate_left a b t
          (dropWhile_eq_self_of_trim_fixed a (htr a (List.mem_cons_self _ _)))
      · exact rev_dropWhile_intercalate (a :: b :: t) (List.cons_ne_nil _ _)
          (fun v hv => rev_dropWhile_eq_self_of_trim_fixed v (htr v hv))

theorem drop_length_takeWhile (p : Char → Bool) : ∀ l : Str,
    l.drop (l.takeWhile p).length = l.dropWhile p
  | [] => rfl
  | c :: t => by
    rw [List.takeWhile_cons, List.dropWhile_cons]
    by_cases h : p c = true
    · rw [if_pos h, if_pos h, List.length_cons, List.drop_succ_cons]
      exact drop_length_takeWhile p t
    · rw [if_neg h, if_neg h, List.length_nil, List.drop_zero]

theorem isVersionBanner_no_pipe (l : Str) (hp : '|' ∈ l) :
    isVersionBanner l = false := by
  unfold isVersionBanner
  split_ifs with h9
  · dsimp only
    have hl : l.take 9 ++ l.drop 9 = l := List.take_append_drop 9 l
    have hp9 : '|' ∈ l.drop 9 := by
      rcases List.mem_append.mp (hl ▸ hp) with h | h
      · rw [h9] at h
        exact absurd h (by decide)
      · exact h
    have hsplit : (l.drop 9).takeWhile isWS ++ (l.drop 9).dropWhile isWS = l.drop 9 :=
      List.takeWhile_append_dropWhile isWS (l.drop 9)
    have hp2 : '|' ∈ (l.drop 9).dropWhile isWS := by
      rcases List.mem_append.mp (hsplit ▸ hp9) with h | h
      · exact absurd (List.mem_takeWhile_imp h) (by decide)
      · exact h
    rw [drop_length_takeWhile isWS (l.drop 9)]
    cases hr2 : (l.drop 9).dropWhile isWS with
    | nil =>
      rw [hr2] at hp2
      exact absurd hp2 (List.not_mem_nil _)
    | cons c r3 =>
      rw [hr2] at hp2
      split
      · rename_i r3' heq
        have hc : c = 'V' ∧ r3 = r3' := by
          rw [List.cons.injEq] at heq
          exact heq
        obtain ⟨rfl, rfl⟩ := hc
        rw [List.mem_cons] at hp2
        rcases hp2 with h | hp3
        · exact absurd h (by decide)
        · rw [drop_length_takeWhile isDigitCh]
          have hps : r3.takeWhile isDigitCh ++ r3.dropWhile isDigitCh = r3 :=
            List.takeWhile_append_dropWhile isDigitCh r3
          have hp4 : '|' ∈ r3.dropWhile isDigitCh := by
            rcases List.mem_append.mp (hps ▸ hp3) with h | h
            · exact absurd (List.mem_takeWhile_imp h) (by decide)
            · exact h
          have hne : ¬ (r3.dropWhile isDigitCh = str "[]") := by
            intro he
            rw [he] at hp4
            exact absurd hp4 (by decide)
          rw [decide_eq_false hne]
          simp
      · simp
  · rfl

theorem keepDataLine_of (line : Str) (htr : trim line = line) (hp : '|' ∈ line)
    (hall : ¬ (line.splitOn '|').all (fun field => endsWith (trim field) (str "[]")) = true) :
    keepDataLine line = true := by
  unfold keepDataLine
  dsimp only
  rw [htr]
  rw [if_neg (List.ne_nil_of_mem hp),
    if_neg (show ¬ isVersionBanner line = true by
      rw [isVersionBanner_no_pipe line hp]
      exact Bool.false_ne_true),
    if_neg (show ¬ (containsSub line (str "[]") = true ∧ endsWith line (str "[]") = true ∧
      (line.splitOn '|').all (fun field => endsWith (trim field) (str "[]")) = true) from
      fun h => hall h.2.2),
    if_neg (show ¬ ¬ line.contains '|' = true from
      fun h => h (List.elem_iff.mpr hp))]

theorem findHeaderLine_cons (l : Str) (rest : List Str)
    (hc : l.contains '|' = true) (hb : isVersionBanner l = false) :
    findHeaderLine (l :: rest) = some (l, 1) := by
  unfold findHeaderLine
  have ht : (l :: rest).take 3 = l :: rest.take 2 := rfl
  rw [ht, List.enum_cons, List.find?_cons]
  dsimp only
  rw [decide_eq_true (show l.contains '|' = true ∧ ¬ isVersionBanner l = true from
    ⟨hc, fun h => Bool.false_ne_true (hb.symm.trans h)⟩)]
  rfl

theorem map_dictGet_self : ∀ row : List (Str × Str), (row.map Prod.fst).Nodup →
    (row.map Prod.fst).map (fun h => dictGet row h) = row.map Prod.snd
  | [], _ => rfl
  | p :: rest, hnd => by
    rw [List.map_cons, List.nodup_cons] at hnd
    have hstep : (rest.map Prod.fst).map (fun h => dictGet (p :: rest) h) =
        (rest.map Prod.fst).map (fun h => dictGet rest h) :=
      List.map_congr_left (fun h hh => by
        rw [dictGet_cons, if_neg (show ¬ (p.1 = h) from fun he => hnd.1 (he ▸ hh))])
    rw [List.map_cons, List.map_cons, List.map_cons, hstep,
      map_dictGet_self rest hnd.2, dictGet_cons, if_pos rfl]

theorem objSet_not_mem : ∀ (m : List (Str × Str)) (k v : Str),
    k ∉ m.map Prod.fst → objSet m k v = m ++ [(k, v)]
  | [], _, _, _ => rfl
  | p :: m, k, v, h => by
    rw [List.map_cons, List.mem_cons] at h
    push_neg at h
    rw [objSet, if_neg (show ¬ (p.1 = k) from fun he => h.1 he.symm),
      objSet_not_mem m k v h.2, List.cons_append]

theorem foldl_objSet_fresh (f : Nat → Str) :
    ∀ (L : List (Nat × Str)) (m : List (Str × Str)),
      (L.map Prod.snd).Nodup →
      (∀ k ∈ L.map Prod.snd, k ∉ m.map Prod.fst) →
      L.foldl (fun m p => objSet m p.2 (f p.1)) m =
        m ++ L.map (fun p => (p.2, f p.1))
  | [], m, _, _ => by simp
  | q :: L, m, hnd, hdisj => by
    rw [List.map_cons, List.nodup_cons] at hnd
    rw [List.foldl_cons, objSet_not_mem m q.2 (f q.1)
        (hdisj q.2 (by rw [List.map_cons]; exact List.mem_cons_self _ _)),
      foldl_objSet_fresh f L (m ++ [(q.2, f q.1)]) hnd.2 ?_, List.map_cons,
      List.append_assoc, List.singleton_append]
    intro k hk
    rw [List.map_append, List.mem_append]
    rintro (h | h)
    · exact hdisj k (by rw [List.map_cons]; exact List.mem_cons_of_mem _ hk) h
    · rw [show ([(q.2, f q.1)].map Prod.fst) = [q.2] from rfl, List.mem_singleton] at h
      exact hnd.1 (h ▸ hk)

theorem mkParsedRow_nodup (headers fields : List Str) (hnd : headers.Nodup) :
    mkParsedRow headers fields =
      headers.enum.map (fun p => (p.2, trim (fields.getD p.1 []))) := by
  unfold mkParsedRow
  have h := foldl_objSet_fresh (fun i => trim (fields.getD i [])) headers.enum []
    (by rw [List.enum_map_snd]; exact hnd)
    (fun k _ hk => absurd hk (List.not_mem_nil k))
  exact h

theorem enum_rebuild (row : List (Str × Str))
    (htrim : ∀ p ∈ row, trim p.2 = p.2) :
    (row.map Prod.fst).enum.map
      (fun p => (p.2, trim ((row.map Prod.snd).getD p.1 []))) = row := by
  refine List.ext_getElem (by simp) ?_
  intro i h1 h2
  have hi : i < row.length := h2
  have hsnd : i < (row.map Prod.snd).length := by simpa using hi
  rw [List.getElem_map, List.getElem_enum]
  dsimp only
  rw [List.getD_eq_getElem?_getD, List.getElem?_eq_getElem hsnd, Option.getD_some,
    List.getElem_map, List.getElem_map, htrim row[i] (List.getElem_mem hi)]

theorem LEDES_HEADERS_nodup : LEDES_HEADERS.Nodup := by decide

/-- C3: round-trip. For a dataset whose header list is exactly the canonical
LEDES field list, whose every row is keyed by that list in order, and whose
values contain no pipe and no newline, are unchanged by `trim`, and (per row)
include at least one value not ending in `[]`, parsing the serialised text
restores the dataset exactly.  (The trim-stability and `[]` conditions are
necessary: serialisation does not escape, and the parser trims every value
and discards header-looking data lines.) -/
theorem c3_round_trip (d : LedesData)
    (hhd : d.headers = LEDES_HEADERS)
    (hkeys : ∀ row ∈ d.rows, row.map Prod.fst = LEDES_HEADERS)
    (hvals : ∀ row ∈ d.rows, ∀ p ∈ row, ('|' ∉ p.2) ∧ ('\n' ∉ p.2) ∧ trim p.2 = p.2)
    (hnb : ∀ row ∈ d.rows, ∃ p ∈ row, endsWith p.2 (str "[]") = false) :
    parseFile (formatForDownload d) = Except.ok d := by
  obtain ⟨hs, rows⟩ := d
  replace hhd : hs = LEDES_HEADERS := hhd
  subst hhd
  replace hkeys : ∀ row ∈ rows, row.map Prod.fst = LEDES_HEADERS := hkeys
  replace hvals : ∀ row ∈ rows, ∀ p ∈ row,
    ('|' ∉ p.2) ∧ ('\n' ∉ p.2) ∧ trim p.2 = p.2 := hvals
  replace hnb : ∀ row ∈ rows, ∃ p ∈ row, endsWith p.2 (str "[]") = false := hnb
  have hrlen : ∀ row ∈ rows, (row.map Prod.snd).length = LEDES_HEADERS.length := by
    intro row hr
    rw [List.length_map]
    have h := congrArg List.length (hkeys row hr)
    rwa [List.length_map] at h
  have hline : ∀ row ∈ rows,
      trim (List.intercalate ['|'] (row.map Prod.snd)) =
        List.intercalate ['|'] (row.map Prod.snd) ∧
      '|' ∈ List.intercalate ['|'] (row.map Prod.snd) := by
    intro row hr
    have hlen := hrlen row hr
    constructor
    · refine trim_intercalate _ (by rw [hlen]; decide) ?_
      intro v hv
      rcases List.mem_map.mp hv with ⟨p, hp, rfl⟩
      exact (hvals row hr p hp).2.2
    · cases hv : row.map Prod.snd with
      | nil =>
        rw [hv] at hlen
        exact absurd hlen (by decide)
      | cons a vs =>
        cases vs with
        | nil =>
          rw [hv] at hlen
          rw [List.length_singleton] at hlen
          exact absurd hlen.symm (by decide)
        | cons b t =>
          exact pipe_mem_intercalate '|' a b t
  have hsplitrow : ∀ row ∈ rows,
      (List.intercalate ['|'] (row.map Prod.snd)).splitOn '|' = row.map Prod.snd := by
    intro row hr
    refine List.splitOn_intercalate _ '|' ?_ ?_
    · intro v hv
      rcases List.mem_map.mp hv with ⟨p, hp, rfl⟩
      exact (hvals row hr p hp).1
    · intro he
      have h := hrlen row hr
      rw [he] at h
      exact absurd h (by decide)
  unfold formatForDownload
  dsimp only
  have hlines : rows.map (fun row =>
      List.intercalate (str "|") (LEDES_HEADERS.map (fun header => dictGet row header))) =
      rows.map (fun row => List.intercalate ['|'] (row.map Prod.snd)) := by
    refine List.map_congr_left (fun row hr => ?_)
    rw [show (str "|") = ['|'] from rfl, ← hkeys row hr,
      map_dictGet_self row (by rw [hkeys row hr]; exact LEDES_HEADERS_nodup)]
  rw [hlines, show (str "\n") = ['\n'] from rfl]
  unfold parseFile
  dsimp only
  rw [List.splitOn_intercalate _ '\n' (by
      intro l hl
      rw [List.mem_cons] at hl
      rcases hl with rfl | hl
      · decide
      · rcases List.mem_map.mp hl with ⟨row, hr, rfl⟩
        intro hmem
        rcases mem_intercalate_char _ hmem with he | ⟨v, hv, hcv⟩
        · exact absurd he (by decide)
        · rcases List.mem_map.mp hv with ⟨p, hp, rfl⟩
          exact (hvals row hr p hp).2.1 hcv)
    (List.cons_ne_nil _ _)]
  rw [List.filter_eq_self.mpr (by
    intro a ha
    rw [List.mem_cons] at ha
    rcases ha with rfl | ha
    · decide
    · rcases List.mem_map.mp ha with ⟨row, hr, rfl⟩
      exact decide_eq_true (by
        rw [(hline row hr).1]
        exact List.ne_nil_of_mem (hline row hr).2))]
  rw [if_neg (show ¬ (List.intercalate (str "|")
      (LEDES_HEADERS.map (fun h => h ++ str "[]")) ::
      rows.map (fun row => List.intercalate ['|'] (row.map Prod.snd))).length = 0 by simp)]
  rw [findHeaderLine_cons _ _ (by decide) (by decide)]
  dsimp only
  rw [show ((List.intercalate (str "|")
      (LEDES_HEADERS.map (fun h => h ++ str "[]"))).splitOn '|').map
      (fun h => trim (stripBrackets (trim h))) = LEDES_HEADERS by decide]
  rw [List.filter_eq_self.mpr (by
    intro line hlmem
    rcases List.mem_map.mp hlmem with ⟨row, hr, rfl⟩
    refine keepDataLine_of _ (hline row hr).1 (hline row hr).2 ?_
    rw [hsplitrow row hr]
    intro hall
    rw [List.all_eq_true] at hall
    rcases hnb row hr with ⟨p, hp, hpe⟩
    have h := hall p.2 (List.mem_map_of_mem Prod.snd hp)
    rw [(hvals row hr p hp).2.2, hpe] at h
    exact Bool.false_ne_true h)]
  rw [List.drop_one, List.tail_cons, List.map_map]
  have hrows : rows.map ((fun line =>
      mkParsedRow LEDES_HEADERS (padTo (line.splitOn '|') LEDES_HEADERS.length)) ∘
      (fun row => List.intercalate ['|'] (row.map Prod.snd))) = rows := by
    have hid : ∀ row ∈ rows, ((fun line =>
        mkParsedRow LEDES_HEADERS (padTo (line.splitOn '|') LEDES_HEADERS.length)) ∘
        (fun row => List.intercalate ['|'] (row.map Prod.snd))) row = row := by
      intro row hr
      dsimp only [Function.comp]
      rw [hsplitrow row hr]
      have hpad : padTo (row.map Prod.snd) LEDES_HEADERS.length = row.map Prod.snd := by
        unfold padTo
        rw [hrlen row hr, Nat.sub_self, List.replicate_zero, List.append_nil]
      rw [hpad, mkParsedRow_nodup _ _ LEDES_HEADERS_nodup, ← hkeys row hr,
        enum_rebuild row (fun p hp => (hvals row hr p hp).2.2)]
    calc rows.map _ = rows.map id := List.map_congr_left hid
      _ = rows := List.map_id rows
  rw [hrows]

theorem c3_round_trip_witness :
    (∀ row ∈ ([LEDES_HEADERS.map (fun h => (h, ([] : Str)))] : List (List (Str × Str))),
      row.map Prod.fst = LEDES_HEADERS) ∧
    parseFile (formatForDownload
        { headers := LEDES_HEADERS,
          rows := [LEDES_HEADERS.map (fun h => (h, ([] : Str)))] }) =
      Except.ok { headers := LEDES_HEADERS,
                  rows := [LEDES_HEADERS.map (fun h => (h, ([] : Str)))] } := by
  refine ⟨by decide, ?_⟩
  exact c3_round_trip
    { headers := LEDES_HEADERS, rows := [LEDES_HEADERS.map (fun h => (h, ([] : Str)))] }
    rfl (by decide) (by decide) (by decide)

/-- C3 counterexample: a value with a trailing space contains no pipe and no
newline, yet the round trip strips the space — the parser trims every field —
so `parse(serialize(d)) = d` does not hold for all pipe-free newline-free
values as the claim states. -/
theorem c3_counterexample :
    (∀ row ∈ ([LEDES_HEADERS.map (fun h =>
        (h, if h = str "INVOICE_DATE" then str "x " else ([] : Str)))] :
        List (List (Str × Str))),
      ∀ p ∈ row, ('|' ∉ p.2) ∧ ('\n' ∉ p.2)) ∧
    parseFile (formatForDownload
        { headers := LEDES_HEADERS,
          rows := [LEDES_HEADERS.map (fun h =>
            (h, if h = str "INVOICE_DATE" then str "x " else ([] : Str)))] }) ≠
      Except.ok { headers := LEDES_HEADERS,
                  rows := [LEDES_HEADERS.map (fun h =>
                    (h, if h = str "INVOICE_DATE" then str "x " else ([] : Str)))] } :=
  ⟨by decide, by decide⟩
